import Mathlib

/-!
Verification of the trap-taking and trap-return control logic of the
riscv-ovpsim hart model (source/riscvExceptions.c).

The development is a shallow embedding: the mutable per-hart state
(`riscvP` in the source) becomes the structure `riscvState`, and each C
function becomes a Lean function from state to state (state passing).
Machine integers (Uns32/Uns64) are embedded as `Nat`; bitwise C
operations are written with `Nat.land` / `Nat.lor` / shifts, and 64-bit
complement (`~x`) as `not64`.  External simulator services (vmirt* calls,
net ports, message output, notification callbacks) do not change the
architectural state modelled here and are embedded as identities; where a
collaborator outside this file's source decides behaviour, the definition
carries a comment saying it is modelled from the spec.
-/

/-- Exception/interrupt codes, from riscvExceptionDefinitions.h (values are
the architectural RISC-V cause codes; the interrupt flag is the high bit
riscv_E_Interrupt, with external interrupts at offsets 8..11 so that
`exception - riscv_E_ExternalInterrupt` indexes the per-mode ID latch). -/
def riscv_E_InstructionAddressMisaligned : Nat := 0

def riscv_E_InstructionAccessFault : Nat := 1

def riscv_E_IllegalInstruction : Nat := 2

def riscv_E_Breakpoint : Nat := 3

def riscv_E_LoadAddressMisaligned : Nat := 4

def riscv_E_LoadAccessFault : Nat := 5

def riscv_E_StoreAMOAddressMisaligned : Nat := 6

def riscv_E_StoreAMOAccessFault : Nat := 7

def riscv_E_EnvironmentCallFromUMode : Nat := 8

def riscv_E_EnvironmentCallFromSMode : Nat := 9

def riscv_E_EnvironmentCallFromHMode : Nat := 10

def riscv_E_EnvironmentCallFromMMode : Nat := 11

def riscv_E_InstructionPageFault : Nat := 12

def riscv_E_LoadPageFault : Nat := 13

def riscv_E_StoreAMOPageFault : Nat := 14

/-- The interrupt flag bit in an exception code (bit 6). -/
def riscv_E_Interrupt : Nat := 64

def riscv_E_USWInterrupt : Nat := riscv_E_Interrupt + 0

def riscv_E_SSWInterrupt : Nat := riscv_E_Interrupt + 1

def riscv_E_MSWInterrupt : Nat := riscv_E_Interrupt + 3

def riscv_E_UTimerInterrupt : Nat := riscv_E_Interrupt + 4

def riscv_E_STimerInterrupt : Nat := riscv_E_Interrupt + 5

def riscv_E_MTimerInterrupt : Nat := riscv_E_Interrupt + 7

def riscv_E_UExternalInterrupt : Nat := riscv_E_Interrupt + 8

def riscv_E_SExternalInterrupt : Nat := riscv_E_Interrupt + 9

def riscv_E_MExternalInterrupt : Nat := riscv_E_Interrupt + 11

/-- First external interrupt (equals riscv_E_UExternalInterrupt). -/
def riscv_E_ExternalInterrupt : Nat := riscv_E_UExternalInterrupt

/-- First local interrupt index (riscv_E_Local). -/
def riscv_E_Local : Nat := 16

/-- Privilege modes, from riscvTypes: numeric values U=0, S=1, H=2
(reserved), M=3; C code compares them as integers. -/
inductive riscvMode where
  | User
  | Supervisor
  | Hypervisor
  | Machine
deriving DecidableEq, Repr

/-- Numeric value of a mode as used by C comparisons. -/
def riscvMode.toNat : riscvMode → Nat
  | .User => 0
  | .Supervisor => 1
  | .Hypervisor => 2
  | .Machine => 3

/-- Debug-mode entry causes (dmCause in the source; exact numeric values
live in a header outside src and do not affect any claim). -/
def DMC_NONE : Nat := 0

def DMC_HALTREQ : Nat := 1

def DMC_EBREAK : Nat := 2

def DMC_STEP : Nat := 4

/-- Disable-reason bits (riscvDisableReason; exact values are from a
header outside src and do not affect any claim). -/
def RVD_DEBUG : Nat := 1

def RVD_WFI : Nat := 2

/-- Access-fault detail value riscv_AFault_None. -/
def AFault_None : Nat := 0

/-- Interrupt vectoring mode riscv_int_Direct (0); nonzero is vectored. -/
def riscv_int_Direct : Nat := 0

/-- The architectural state of one hart, as read and written by
riscvExceptions.c.  CSRs are held as named fields (the register file is an
external collaborator; the fields mirror exactly the RD_CSR/WR_CSR
accesses made by the source).  Configuration fields (riscv->configInfo)
and the implemented-mode queries are carried as plain fields. -/
structure riscvState where
  /-- current privilege mode (getCurrentMode). -/
  mode : riscvMode
  /-- Debug-Mode flag (riscv->DM, inDebugMode). -/
  DM : Bool
  /-- Debug-Mode stall indication (riscv->DMStall). -/
  DMStall : Bool
  /-- halt-reason bitmask (riscv->disable). -/
  disable : Nat
  /-- program counter (vmirtGetPC / vmirtSetPC / vmirtSetPCException). -/
  pc : Nat
  /-- delay-slot offset reported by vmirtGetPCDS (nonzero mid-expansion). -/
  dsOffset : Nat
  /-- saved base address of the original instruction (riscv->jumpBase). -/
  jumpBase : Nat
  /-- mstatus interrupt-enable and previous-enable bits. -/
  MIE : Bool
  MPIE : Bool
  SIE : Bool
  SPIE : Bool
  UIE : Bool
  UPIE : Bool
  /-- mstatus modify-privilege override bit. -/
  MPRV : Bool
  /-- mstatus previous-privilege fields. -/
  MPP : riscvMode
  SPP : riscvMode
  /-- cause registers (ExceptionCode and Interrupt fields). -/
  mcauseCode : Nat
  scauseCode : Nat
  ucauseCode : Nat
  mcauseInterrupt : Bool
  scauseInterrupt : Bool
  ucauseInterrupt : Bool
  /-- epc registers. -/
  mepc : Nat
  sepc : Nat
  uepc : Nat
  /-- writable-bit masks of the epc registers (RD_CSR_MASK). -/
  mepcMask : Nat
  sepcMask : Nat
  uepcMask : Nat
  /-- tval registers. -/
  mtval : Nat
  stval : Nat
  utval : Nat
  /-- trap-vector registers: BASE field and MODE field per mode. -/
  mtvecBASE : Nat
  stvecBASE : Nat
  utvecBASE : Nat
  mtvecMODE : Nat
  stvecMODE : Nat
  utvecMODE : Nat
  /-- model-specific default vectoring modes (riscv->_X##IMode). -/
  MIMode : Nat
  SIMode : Nat
  UIMode : Nat
  /-- delegation registers. -/
  medeleg : Nat
  sedeleg : Nat
  mideleg : Nat
  sideleg : Nat
  /-- interrupt enable and pending registers (mie, mip). -/
  mie : Nat
  mip : Nat
  /-- per-mode external-interrupt-ID latches (riscv->extInt[0..3]). -/
  extIntU : Nat
  extIntS : Nat
  extIntH : Nat
  extIntM : Nat
  /-- retired-instruction counter (riscv->baseInstructions). -/
  baseInstructions : Nat
  /-- mcountinhibit.IR in effect (riscvInhibitInstret). -/
  inhibitInstret : Bool
  /-- exclusive-access tag; none is RISCV_NO_TAG. -/
  exclusiveTag : Option Nat
  /-- last taken exception (riscv->exception). -/
  exception : Nat
  /-- access-fault detail latch (riscv->AFErrorIn / AFErrorOut). -/
  AFErrorIn : Nat
  AFErrorOut : Nat
  /-- first-only-fault flag (riscv->vFirstFault). -/
  vFirstFault : Bool
  /-- vstart CSR and its writable mask (MASK_CSR), and vl CSR. -/
  vstart : Nat
  vstartMask : Nat
  vl : Nat
  /-- whether the polymorphic vector re-key operation has been invoked
  (models the effect of riscvRefreshVectorPMKey, an external call). -/
  vPMKeyRefreshed : Bool
  /-- debug CSRs: dcsr.prv, dcsr.cause and dpc. -/
  dcsrPrv : riscvMode
  dcsrCause : Nat
  dpc : Nat
  /-- compressed instructions currently enabled (riscv->currentArch & ISA_C). -/
  hasC : Bool
  /-- configuration: xret_preserves_lr. -/
  xret_preserves_lr : Bool
  /-- privileged-spec version newer than RVPV_20190405. -/
  privVersionGT20190405 : Bool
  /-- configuration: tval_ii_code (Illegal Instruction tval holds pattern). -/
  tval_ii_code : Bool
  /-- instruction pattern returned by riscvGetInstruction at the pc. -/
  instrPattern : Nat
  /-- implemented-mode queries: Supervisor / User mode present. -/
  hasS : Bool
  hasU : Bool
  /-- configuration: debug_mode == RVDM_INTERRUPT policy. -/
  configDebugModeIsInterrupt : Bool
deriving DecidableEq, Repr

/-- 64-bit complement, as C `~x` on Uns64 (valid for x < 2^64). -/
def not64 (x : Nat) : Nat := Nat.xor x (2 ^ 64 - 1)

/-- setPCxRET: mask exception return address to a 4-byte boundary if
compressed instructions are not currently enabled, then set the PC
(`newPC &= -4` on Uns64 clears the low two bits). -/
def setPCxRET (s : riscvState) (newPC : Nat) : riscvState :=
  let newPC := if s.hasC then newPC else newPC - newPC % 4
  {s with pc := newPC}

/-- riscvFetchSnap: fetch addresses are always snapped to a 2-byte
boundary (`thisPC & -2`), irrespective of compressed support. -/
def riscvFetchSnap (thisPC : Nat) : Nat := thisPC - thisPC % 2

/-- clearEA: clear any active exclusive access. -/
def clearEA (s : riscvState) : riscvState := {s with exclusiveTag := none}

/-- clearEAxRET: clear any active exclusive access on an xRET, if required. -/
def clearEAxRET (s : riscvState) : riscvState :=
  if s.xret_preserves_lr then s else clearEA s

/-- getEPC: return PC to which to return after taking an exception; if
mid-way through an instruction-table expansion, the saved base address of
the original instruction is used instead. -/
def getEPC (s : riscvState) : Nat :=
  if s.dsOffset ≠ 0 then s.jumpBase else s.pc

/-- getModeX: the mode to which to take the given exception or interrupt.
The C parameters are Uns32 and the bit test is `mMask & (1<<ecode)`; the
result cannot be a lower-privilege mode than the current one. -/
def getModeX (s : riscvState) (mMask sMask ecode : Nat) : riscvMode :=
  let modeY := s.mode
  let modeX :=
    if Nat.land mMask (1 <<< ecode) = 0 then riscvMode.Machine
    else if Nat.land sMask (1 <<< ecode) = 0 then riscvMode.Supervisor
    else riscvMode.User
  if modeY.toNat < modeX.toNat then modeX else modeY

/-- getInterruptModeX: destination mode for an interrupt. -/
def getInterruptModeX (s : riscvState) (ecode : Nat) : riscvMode :=
  getModeX s s.mideleg s.sideleg ecode

/-- getExceptionModeX: destination mode for an exception. -/
def getExceptionModeX (s : riscvState) (ecode : Nat) : riscvMode :=
  getModeX s s.medeleg s.sedeleg ecode

/-- The delegation computation exactly as the specification words it:
Machine if bit `code` is clear in the machine-delegation register, else
Supervisor if clear in the supervisor-delegation register, else User
(spec section 4.1).  Used only to compare against `getModeX`. -/
def delegatedModeSpec (mMask sMask code : Nat) : riscvMode :=
  if mMask.testBit code = false then riscvMode.Machine
  else if sMask.testBit code = false then riscvMode.Supervisor
  else riscvMode.User

/-- Maximum of two modes under the ordering User < Supervisor < Machine
(spec section 4.1's `max(computed, currentMode)`). -/
def maxMode (a b : riscvMode) : riscvMode :=
  if a.toNat ≤ b.toNat then b else a

/-- IS_INTERRUPT: the exception's interrupt flag (bit 6, riscv_E_Interrupt). -/
def IS_INTERRUPT (exception : Nat) : Bool := exception.testBit 6

/-- GET_ECODE: the exception code with the interrupt flag cleared
(`exception & ~riscv_E_Interrupt`, an exact bit-6 clear). -/
def GET_ECODE (exception : Nat) : Nat :=
  exception - (if exception.testBit 6 then riscv_E_Interrupt else 0)

/-- getIMode: interrupt vectoring mode — the [msu]tvec MODE field if it
encodes one, else the model-specific custom mode (pre-1.10 fallback). -/
def getIMode (customMode tvecMode : Nat) : Nat :=
  if tvecMode ≠ 0 then tvecMode else customMode

/-- retiredCode: does this exception code correspond to a retired
instruction (Breakpoint and the ECALL variants)? -/
def retiredCode (exception : Nat) : Bool :=
  if exception = riscv_E_Breakpoint then true
  else if exception = riscv_E_EnvironmentCallFromUMode then true
  else if exception = riscv_E_EnvironmentCallFromSMode then true
  else if exception = riscv_E_EnvironmentCallFromHMode then true
  else if exception = riscv_E_EnvironmentCallFromMMode then true
  else false

/-- accessFaultCode: does this exception code correspond to an Access
Fault? -/
def accessFaultCode (exception : Nat) : Bool :=
  if exception = riscv_E_InstructionAccessFault then true
  else if exception = riscv_E_LoadAccessFault then true
  else if exception = riscv_E_StoreAMOAccessFault then true
  else false

/-- isExternalInterrupt: is the exception an external interrupt? -/
def isExternalInterrupt (exception : Nat) : Bool :=
  decide (riscv_E_UExternalInterrupt ≤ exception ∧
          exception ≤ riscv_E_MExternalInterrupt)

/-- The per-mode external-interrupt-ID latch array riscv->extInt[offset],
indexed by mode (0=U, 1=S, 2=H, 3=M). -/
def extInt (s : riscvState) (offset : Nat) : Nat :=
  if offset = 0 then s.extIntU
  else if offset = 1 then s.extIntS
  else if offset = 2 then s.extIntH
  else s.extIntM

/-- riscvSetMode: switch the current privilege mode (riscvUtils.c; the
architectural effect relevant here is the mode change itself). -/
def riscvSetMode (s : riscvState) (m : riscvMode) : riscvState :=
  {s with mode := m}

/-- haltProcessor: record a disable reason (the vmirtHalt call is a
simulator-scheduling action with no architectural state). -/
def haltProcessor (s : riscvState) (reason : Nat) : riscvState :=
  {s with disable := Nat.lor s.disable reason}

/-- restartProcessor: clear a disable reason (`disable &= ~reason`). -/
def restartProcessor (s : riscvState) (reason : Nat) : riscvState :=
  {s with disable := s.disable - Nat.land s.disable reason}

/-- updateDMStall: update Debug-Mode stalled state, halting or restarting
the processor unless the debug-interrupt policy is configured. -/
def updateDMStall (s : riscvState) (DMStall : Bool) : riscvState :=
  let s := {s with DMStall := DMStall}
  if s.configDebugModeIsInterrupt then s
  else if DMStall then haltProcessor s RVD_DEBUG
  else restartProcessor s RVD_DEBUG

/-- setDM: update the Debug-Mode flag (the net-port write is external). -/
def setDM (s : riscvState) (DM : Bool) : riscvState :=
  {s with DM := DM}

/-- enterDM: enter Debug Mode — when not already in Debug Mode, set the
flag, save current mode and cause into dcsr, save the current instruction
address into dpc and force Machine mode; in all cases update the stall
state (riscvPreInhibit/riscvPostInhibit only rebalance counter bases and
are state-neutral here; vmirtInterrupt is external). -/
def enterDM (s0 : riscvState) (cause : Nat) : riscvState :=
  let s1 :=
    if s0.DM then s0
    else
      let s := setDM s0 true
      let s := {s with dcsrPrv := s.mode, dcsrCause := cause}
      let s := {s with dpc := getEPC s}
      riscvSetMode s riscvMode.Machine
  updateDMStall s1 true

/-- TARGET_MODE_X instantiated for User mode: update interrupt-enable
stack, cause, epc (masked to the register's writable bits), tval, and
return the trap-vector base (BASE<<2) and resolved vectoring mode. -/
def TARGET_MODE_U (s : riscvState) (isInt : Bool) (ecode EPC tval : Nat) :
    riscvState × Nat × Nat :=
  let IE := s.UIE
  let s := {s with UPIE := IE, UIE := false}
  let s := {s with ucauseCode := ecode, ucauseInterrupt := isInt}
  let epcMask := s.uepcMask
  let s := {s with uepc := Nat.land EPC epcMask}
  let s := {s with utval := tval}
  (s, s.utvecBASE <<< 2, getIMode s.UIMode s.utvecMODE)

/-- TARGET_MODE_X instantiated for Supervisor mode. -/
def TARGET_MODE_S (s : riscvState) (isInt : Bool) (ecode EPC tval : Nat) :
    riscvState × Nat × Nat :=
  let IE := s.SIE
  let s := {s with SPIE := IE, SIE := false}
  let s := {s with scauseCode := ecode, scauseInterrupt := isInt}
  let epcMask := s.sepcMask
  let s := {s with sepc := Nat.land EPC epcMask}
  let s := {s with stval := tval}
  (s, s.stvecBASE <<< 2, getIMode s.SIMode s.stvecMODE)

/-- TARGET_MODE_X instantiated for Machine mode. -/
def TARGET_MODE_M (s : riscvState) (isInt : Bool) (ecode EPC tval : Nat) :
    riscvState × Nat × Nat :=
  let IE := s.MIE
  let s := {s with MPIE := IE, MIE := false}
  let s := {s with mcauseCode := ecode, mcauseInterrupt := isInt}
  let epcMask := s.mepcMask
  let s := {s with mepc := Nat.land EPC epcMask}
  let s := {s with mtval := tval}
  (s, s.mtvecBASE <<< 2, getIMode s.MIMode s.mtvecMODE)

/-- The bookkeeping stage at the start of riscvTakeException's non-debug
path: adjust the retired-instruction counter (unless the code retired or
counting is inhibited), latch or clear the access-fault detail, and clear
any active exclusive access. -/
def takeExcBookkeeping (s0 : riscvState) (exception : Nat) : riscvState :=
  let s1 :=
    if ¬ retiredCode exception ∧ ¬ s0.inhibitInstret then
      {s0 with baseInstructions := s0.baseInstructions + 1}
    else s0
  let s2 := {s1 with AFErrorOut :=
    if accessFaultCode exception then s1.AFErrorIn else AFault_None}
  clearEA s2

/-- The destination-mode computation inside riscvTakeException: the
interrupt or exception delegation pair as appropriate. -/
def takeModeX0 (s : riscvState) (exception : Nat) : riscvMode :=
  if IS_INTERRUPT exception then getInterruptModeX s (GET_ECODE exception)
  else getExceptionModeX s (GET_ECODE exception)

/-- The reported-code computation inside riscvTakeException: for external
interrupts the code may be overridden by the per-mode external-interrupt
ID latch (`riscv->extInt[offset] ?: ecode` — the bare code is used when
the latched ID is zero). -/
def takeEcodeMod (s : riscvState) (exception : Nat) : Nat :=
  if isExternalInterrupt exception then
    let offset := exception - riscv_E_ExternalInterrupt
    if extInt s offset ≠ 0 then extInt s offset else GET_ECODE exception
  else GET_ECODE exception

/-- The non-debug path of riscvTakeException: the bookkeeping stage, then
resolve the destination mode via the delegation registers, apply the
per-mode external-interrupt-ID override to the reported code, update the
destination mode's CSR state, compute the direct or vectored handler
address (vectored uses the bare `ecode`, not the overridden code), switch
mode and set the PC (trap-entry notifier callbacks are external). -/
def takeExcRun (s0 : riscvState) (exception tval : Nat) : riscvState :=
  let isInt := IS_INTERRUPT exception
  let ecode := GET_ECODE exception
  let EPC := getEPC s0
  let modeY := s0.mode
  let s3 := takeExcBookkeeping s0 exception
  let modeX := takeModeX0 s3 exception
  let ecodeMod := takeEcodeMod s3 exception
  let tgt :=
    if modeX = riscvMode.User then
      TARGET_MODE_U s3 isInt ecodeMod EPC tval
    else if modeX = riscvMode.Supervisor then
      let r := TARGET_MODE_S s3 isInt ecodeMod EPC tval
      ({r.1 with SPP := modeY}, r.2.1, r.2.2)
    else
      let r := TARGET_MODE_M s3 isInt ecodeMod EPC tval
      ({r.1 with MPP := modeY}, r.2.1, r.2.2)
  let s4 := tgt.1
  let base := tgt.2.1
  let imode := tgt.2.2
  let handlerPC :=
    if imode = riscv_int_Direct ∨ ¬ isInt then base else base + 4 * ecode
  let s5 := riscvSetMode s4 modeX
  let s6 := {s5 with exception := exception}
  {s6 with pc := handlerPC}

/-- riscvTakeException: take a processor exception.  In Debug Mode the
trap is not taken and the Debug controller is re-entered with cause
"none" (vmirtAbortRepeat is external); otherwise the non-debug path
above runs. -/
def riscvTakeException (s0 : riscvState) (exception tval : Nat) : riscvState :=
  if s0.DM then enterDM s0 DMC_NONE
  else takeExcRun s0 exception tval

/-- Modelled from the spec: riscvSetVL (riscvCSR.c, outside src) sets the
effective vector length; used by the first-only-fault path to clamp vl to
the current vstart. -/
def riscvSetVL (s : riscvState) (vl : Nat) : riscvState :=
  {s with vl := vl}

/-- Modelled from the spec: riscvRefreshVectorPMKey (outside src) is the
dependent polymorphic re-key operation; recorded here as a flag. -/
def riscvRefreshVectorPMKey (s : riscvState) : riscvState :=
  {s with vPMKeyRefreshed := true}

/-- handleFF: whether an active first-only-fault exception has been
encountered (in which case no exception should be taken), with the
resulting state: the first-only-fault flag is always deactivated, and if
vstart is nonzero the exception is suppressed, vl is clamped to vstart
and the polymorphic key refreshed. -/
def handleFF (s : riscvState) : Bool × riscvState :=
  if s.vFirstFault then
    let s := {s with vFirstFault := false}
    if s.vstart ≠ 0 then
      let s := riscvSetVL s s.vstart
      let s := riscvRefreshVectorPMKey s
      (true, s)
    else (false, s)
  else (false, s)

/-- riscvTakeMemoryException: take an exception for a memory access error
which may be suppressed for a fault-only-first instruction.  MASK_CSR
first masks vstart to its writable bits (reportMemoryException is
diagnostic output only). -/
def riscvTakeMemoryException (s : riscvState) (exception tval : Nat) :
    riscvState :=
  let s := {s with vstart := Nat.land s.vstart s.vstartMask}
  match handleFF s with
  | (true, s1) => s1
  | (false, s1) => riscvTakeException s1 exception tval

/-- riscvIllegalInstruction: take an Illegal Instruction exception; tval
is the instruction pattern when configured, else 0. -/
def riscvIllegalInstruction (s : riscvState) : riscvState :=
  let tval := if s.tval_ii_code then s.instrPattern else 0
  riscvTakeException s riscv_E_IllegalInstruction tval

/-- getERETMode: the mode to return to — the requested mode if
implemented on this processor, else the minimum implemented mode. -/
def riscvHasMode (s : riscvState) : riscvMode → Bool
  | riscvMode.Machine => true
  | riscvMode.Hypervisor => false
  | riscvMode.Supervisor => s.hasS
  | riscvMode.User => s.hasU

/-- Modelled from the spec: riscvGetMinMode (riscvUtils.c, outside src)
returns the minimum privilege mode implemented by the hart. -/
def riscvGetMinMode (s : riscvState) : riscvMode :=
  if s.hasU then riscvMode.User
  else if s.hasS then riscvMode.Supervisor
  else riscvMode.Machine

def getERETMode (s : riscvState) (newMode minMode : riscvMode) : riscvMode :=
  if riscvHasMode s newMode then newMode else minMode

/-- clearMPRV: from version 1.12, MRET and SRET clear mstatus.MPRV when
the new mode is less privileged than Machine. -/
def clearMPRV (s : riscvState) (newMode : riscvMode) : riscvState :=
  if s.privVersionGT20190405 ∧ newMode ≠ riscvMode.Machine then
    {s with MPRV := false}
  else s

/-- getIE: effective interrupt enable for `modeIE` given the raw enable
bit — enabled below that mode, disabled above it, the raw bit at it. -/
def getIE (s : riscvState) (IE : Bool) (modeIE : riscvMode) : Bool :=
  let mode := s.mode
  if mode.toNat < modeIE.toNat then true
  else if mode.toNat > modeIE.toNat then false
  else IE

/-- getPendingInterrupts: `mie & mip`. -/
def getPendingInterrupts (s : riscvState) : Nat := Nat.land s.mie s.mip

/-- getPendingAndEnabledInterrupts: zero in Debug Mode; otherwise the
pending mask with each delegation-partitioned range masked off when its
owning mode's effective enable is false. -/
def getPendingAndEnabledInterrupts (s : riscvState) : Nat :=
  let result := if s.DM then 0 else getPendingInterrupts s
  if result ≠ 0 then
    let MIE := getIE s s.MIE riscvMode.Machine
    let SIE := getIE s s.SIE riscvMode.Supervisor
    let UIE := getIE s s.UIE riscvMode.User
    let mideleg := s.mideleg
    let sideleg := Nat.land s.sideleg mideleg
    let mMask := not64 mideleg
    let sMask := Nat.land mideleg (not64 sideleg)
    let uMask := sideleg
    let r1 := if ¬ MIE then Nat.land result (not64 mMask) else result
    let r2 := if ¬ SIE then Nat.land r1 (not64 sMask) else r1
    if ¬ UIE then Nat.land r2 (not64 uMask) else r2
  else result

/-- doERETCommon: common actions when returning from an exception —
switch to the target mode, jump to the (possibly 4-byte-masked) return
address (return notifiers and the pending-interrupt recheck are external
or state-neutral). -/
def doERETCommon (s : riscvState) (newMode : riscvMode) (epc : Nat) :
    riscvState :=
  setPCxRET (riscvSetMode s newMode) epc

/-- riscvMRET: return from M-mode exception; a no-operation in Debug
Mode. -/
def riscvMRET (s : riscvState) : riscvState :=
  if s.DM then s
  else
    let MPP := s.MPP
    let minMode := riscvGetMinMode s
    let newMode := getERETMode s MPP minMode
    let s := clearEAxRET s
    let s := {s with MIE := s.MPIE}
    let s := {s with MPIE := true}
    let s := {s with MPP := minMode}
    let s := clearMPRV s newMode
    doERETCommon s newMode s.mepc

/-- riscvSRET: return from S-mode exception; a no-operation in Debug
Mode. -/
def riscvSRET (s : riscvState) : riscvState :=
  if s.DM then s
  else
    let SPP := s.SPP
    let minMode := riscvGetMinMode s
    let newMode := getERETMode s SPP minMode
    let s := clearEAxRET s
    let s := {s with SIE := s.SPIE}
    let s := {s with SPIE := true}
    let s := {s with SPP := minMode}
    let s := clearMPRV s newMode
    doERETCommon s newMode s.sepc

/-- riscvURET: return from U-mode exception; a no-operation in Debug
Mode. -/
def riscvURET (s : riscvState) : riscvState :=
  if s.DM then s
  else
    let newMode := riscvMode.User
    let s := clearEAxRET s
    let s := {s with UIE := s.UPIE}
    let s := {s with UPIE := true}
    doERETCommon s newMode s.uepc

/-- leaveDM: leave Debug Mode — clear the flag, clear MPRV if required,
and perform the common return actions to the mode and address saved in
dcsr.prv and dpc. -/
def leaveDM (s0 : riscvState) : riscvState :=
  let newMode := s0.dcsrPrv
  let s := setDM s0 false
  let s := clearMPRV s newMode
  let s := doERETCommon s newMode s.dpc
  updateDMStall s false

/-- riscvDRET: return from Debug Mode; outside Debug Mode this is an
Illegal Instruction exception (the diagnostic message is external). -/
def riscvDRET (s : riscvState) : riscvState :=
  if ¬ s.DM then riscvIllegalInstruction s
  else leaveDM s

/-- The fixed interrupt priority table from getIntPri, indexed by
interrupt number: USW=2, SSW=5, MSW=8, UTimer=1, STimer=4, MTimer=7,
UExternal=3, SExternal=6, MExternal=9; unlisted entries are 0. -/
def intPriTable : List Nat := [2, 5, 0, 8, 1, 4, 0, 7, 3, 6, 0, 9, 0, 0, 0, 0]

/-- getIntPri: priority for the indexed interrupt; out-of-range (local
and custom) interrupts are lowest priority, 0.  (The C table extends to
INT_INDEX(Last); every entry not listed above is zero, so any cutoff of
at least 12 yields this same map.) -/
def getIntPri (intNum : Nat) : Nat :=
  if 16 ≤ intNum then 0 else intPriTable.getD intNum 0

/-- The candidate-replacement step of doInterrupt's selection loop: the
current candidate `sel` (none before the first pending bit) against the
interrupt `ecode`, replacing on strictly-higher destination mode, or on
equal destination mode and fixed priority at least the current one. -/
def pickInt (s : riscvState) (sel : Option Nat) (ecode : Nat) : Nat :=
  match sel with
  | none => ecode
  | some c =>
    if (getInterruptModeX s c).toNat < (getInterruptModeX s ecode).toNat then
      ecode
    else if (getInterruptModeX s ecode).toNat < (getInterruptModeX s c).toNat then
      c
    else if getIntPri c ≤ getIntPri ecode then ecode
    else c

/-- The do-while selection loop of doInterrupt: scan every set bit of the
mask (testing `intMask & 1`, then shifting), keeping the running selected
candidate. -/
def selILoop (s : riscvState) (intMask ecode : Nat) (sel : Option Nat) :
    Option Nat :=
  let sel := if Nat.land intMask 1 ≠ 0 then some (pickInt s sel ecode) else sel
  if intMask / 2 = 0 then sel
  else selILoop s (intMask / 2) (ecode + 1) sel
termination_by intMask
decreasing_by
  rename_i h
  omega

/-- doInterrupt: process the highest-priority interrupt in the given mask
of pending-and-enabled interrupts (the C asserts the mask is non-empty;
an empty mask would leave no selection and is modelled as no state
change). -/
def doInterrupt (s : riscvState) (intMask : Nat) : riscvState :=
  match selILoop s intMask 0 none with
  | some ecode => riscvTakeException s (riscv_E_Interrupt + ecode) 0
  | none => s

/-- A concrete hart state used as the base of the concrete instantiations
below: Machine mode, not in Debug Mode, compressed instructions enabled,
User and Supervisor modes implemented, everything else zeroed. -/
def st0 : riscvState where
  mode := riscvMode.Machine
  DM := false
  DMStall := false
  disable := 0
  pc := 4096
  dsOffset := 0
  jumpBase := 0
  MIE := true
  MPIE := false
  SIE := false
  SPIE := false
  UIE := false
  UPIE := false
  MPRV := false
  MPP := riscvMode.Machine
  SPP := riscvMode.User
  mcauseCode := 0
  scauseCode := 0
  ucauseCode := 0
  mcauseInterrupt := false
  scauseInterrupt := false
  ucauseInterrupt := false
  mepc := 0
  sepc := 0
  uepc := 0
  mepcMask := 65535
  sepcMask := 65535
  uepcMask := 65535
  mtval := 0
  stval := 0
  utval := 0
  mtvecBASE := 256
  stvecBASE := 0
  utvecBASE := 0
  mtvecMODE := 0
  stvecMODE := 0
  utvecMODE := 0
  MIMode := 0
  SIMode := 0
  UIMode := 0
  medeleg := 0
  sedeleg := 0
  mideleg := 0
  sideleg := 0
  mie := 0
  mip := 0
  extIntU := 0
  extIntS := 0
  extIntH := 0
  extIntM := 0
  baseInstructions := 100
  inhibitInstret := false
  exclusiveTag := none
  exception := 0
  AFErrorIn := 0
  AFErrorOut := 0
  vFirstFault := false
  vstart := 0
  vstartMask := 255
  vl := 16
  vPMKeyRefreshed := false
  dcsrPrv := riscvMode.Machine
  dcsrCause := 0
  dpc := 0
  hasC := true
  xret_preserves_lr := false
  privVersionGT20190405 := false
  tval_ii_code := false
  instrPattern := 0
  hasS := true
  hasU := true
  configDebugModeIsInterrupt := false

/-- Concrete state for the C6 counterexample: compressed instructions
enabled and an odd saved mepc. -/
def stC6 : riscvState := {st0 with mepc := 1}

/-- Concrete state for the first-only-fault witness: first-only-fault
mode active with vstart = 3 (the spec's scenario). -/
def stFF : riscvState := {st0 with vFirstFault := true, vstart := 3}

/-- The mode-indexed accessors used to state per-destination properties;
the Hypervisor index maps to the machine-branch registers, mirroring the
else-branch of riscvTakeException's target dispatch. -/
def ieOf (s : riscvState) : riscvMode → Bool
  | riscvMode.User => s.UIE
  | riscvMode.Supervisor => s.SIE
  | _ => s.MIE

def pieOf (s : riscvState) : riscvMode → Bool
  | riscvMode.User => s.UPIE
  | riscvMode.Supervisor => s.SPIE
  | _ => s.MPIE

def epcMaskOf (s : riscvState) : riscvMode → Nat
  | riscvMode.User => s.uepcMask
  | riscvMode.Supervisor => s.sepcMask
  | _ => s.mepcMask

def causeCodeOf (s : riscvState) : riscvMode → Nat
  | riscvMode.User => s.ucauseCode
  | riscvMode.Supervisor => s.scauseCode
  | _ => s.mcauseCode

def tvecBaseOf (s : riscvState) : riscvMode → Nat
  | riscvMode.User => s.utvecBASE
  | riscvMode.Supervisor => s.stvecBASE
  | _ => s.mtvecBASE

/-- The effective vectoring mode for a destination mode (tvec MODE field
with the custom-mode fallback, as read by TARGET_MODE_X). -/
def tvecEffModeOf (s : riscvState) : riscvMode → Nat
  | riscvMode.User => getIMode s.UIMode s.utvecMODE
  | riscvMode.Supervisor => getIMode s.SIMode s.stvecMODE
  | _ => getIMode s.MIMode s.mtvecMODE

/-- The return operation matching a trap taken to the given mode (the
reserved Hypervisor destination has no return operation). -/
def matchingRet : riscvMode → riscvState → riscvState
  | riscvMode.Machine => riscvMRET
  | riscvMode.Supervisor => riscvSRET
  | riscvMode.User => riscvURET
  | riscvMode.Hypervisor => fun s => s

/-- Concrete state for the vectored-external-interrupt witness: machine
trap vector in vectored mode and a latched machine external-interrupt
ID. -/
def stC10 : riscvState := {st0 with mtvecMODE := 1, extIntM := 42}

/-- Selection key of doInterrupt's replacement rule: candidates are
ordered lexicographically by destination mode then fixed priority
(priorities are below 10, so this single number encodes the lexicographic
order).  Used only to reason about the selection loop. -/
def intKey (s : riscvState) (e : Nat) : Nat :=
  10 * (getInterruptModeX s e).toNat + getIntPri e

/-- Concrete state for the C3 witness: User mode with the supervisor
software interrupt delegated to Supervisor mode. -/
def stC3 : riscvState := {st0 with mode := riscvMode.User, mideleg := 2}

@[simp] lemma takeExcBookkeeping_disable (s : riscvState) (e : Nat) :
    (takeExcBookkeeping s e).disable = s.disable := by
  unfold takeExcBookkeeping clearEA
  split <;> rfl

@[simp] lemma takeExcBookkeeping_pc (s : riscvState) (e : Nat) :
    (takeExcBookkeeping s e).pc = s.pc := by
  unfold takeExcBookkeeping clearEA
  split <;> rfl

@[simp] lemma takeExcBookkeeping_dsOffset (s : riscvState) (e : Nat) :
    (takeExcBookkeeping s e).dsOffset = s.dsOffset := by
  unfold takeExcBookkeeping clearEA
  split <;> rfl

@[simp] lemma takeExcBookkeeping_jumpBase (s : riscvState) (e : Nat) :
    (takeExcBookkeeping s e).jumpBase = s.jumpBase := by
  unfold takeExcBookkeeping clearEA
  split <;> rfl

@[simp] lemma takeExcBookkeeping_mcauseCode (s : riscvState) (e : Nat) :
    (takeExcBookkeeping s e).mcauseCode = s.mcauseCode := by
  unfold takeExcBookkeeping clearEA
  split <;> rfl

@[simp] lemma takeExcBookkeeping_scauseCode (s : riscvState) (e : Nat) :
    (takeExcBookkeeping s e).scauseCode = s.scauseCode := by
  unfold takeExcBookkeeping clearEA
  split <;> rfl

@[simp] lemma takeExcBookkeeping_ucauseCode (s : riscvState) (e : Nat) :
    (takeExcBookkeeping s e).ucauseCode = s.ucauseCode := by
  unfold takeExcBookkeeping clearEA
  split <;> rfl

@[simp] lemma takeExcBookkeeping_mepc (s : riscvState) (e : Nat) :
    (takeExcBookkeeping s e).mepc = s.mepc := by
  unfold takeExcBookkeeping clearEA
  split <;> rfl

@[simp] lemma takeExcBookkeeping_sepc (s : riscvState) (e : Nat) :
    (takeExcBookkeeping s e).sepc = s.sepc := by
  unfold takeExcBookkeeping clearEA
  split <;> rfl

@[simp] lemma takeExcBookkeeping_uepc (s : riscvState) (e : Nat) :
    (takeExcBookkeeping s e).uepc = s.uepc := by
  unfold takeExcBookkeeping clearEA
  split <;> rfl

@[simp] lemma takeExcBookkeeping_mepcMask (s : riscvState) (e : Nat) :
    (takeExcBookkeeping s e).mepcMask = s.mepcMask := by
  unfold takeExcBookkeeping clearEA
  split <;> rfl

@[simp] lemma takeExcBookkeeping_sepcMask (s : riscvState) (e : Nat) :
    (takeExcBookkeeping s e).sepcMask = s.sepcMask := by
  unfold takeExcBookkeeping clearEA
  split <;> rfl

@[simp] lemma takeExcBookkeeping_uepcMask (s : riscvState) (e : Nat) :
    (takeExcBookkeeping s e).uepcMask = s.uepcMask := by
  unfold takeExcBookkeeping clearEA
  split <;> rfl

@[simp] lemma takeExcBookkeeping_mtval (s : riscvState) (e : Nat) :
    (takeExcBookkeeping s e).mtval = s.mtval := by
  unfold takeExcBookkeeping clearEA
  split <;> rfl

@[simp] lemma takeExcBookkeeping_stval (s : riscvState) (e : Nat) :
    (takeExcBookkeeping s e).stval = s.stval := by
  unfold takeExcBookkeeping clearEA
  split <;> rfl

@[simp] lemma takeExcBookkeeping_utval (s : riscvState) (e : Nat) :
    (takeExcBookkeeping s e).utval = s.utval := by
  unfold takeExcBookkeeping clearEA
  split <;> rfl

@[simp] lemma takeExcBookkeeping_mtvecBASE (s : riscvState) (e : Nat) :
    (takeExcBookkeeping s e).mtvecBASE = s.mtvecBASE := by
  unfold takeExcBookkeeping clearEA
  split <;> rfl

@[simp] lemma takeExcBookkeeping_stvecBASE (s : riscvState) (e : Nat) :
    (takeExcBookkeeping s e).stvecBASE = s.stvecBASE := by
  unfold takeExcBookkeeping clearEA
  split <;> rfl

@[simp] lemma takeExcBookkeeping_utvecBASE (s : riscvState) (e : Nat) :
    (takeExcBookkeeping s e).utvecBASE = s.utvecBASE := by
  unfold takeExcBookkeeping clearEA
  split <;> rfl

@[simp] lemma takeExcBookkeeping_mtvecMODE (s : riscvState) (e : Nat) :
    (takeExcBookkeeping s e).mtvecMODE = s.mtvecMODE := by
  unfold takeExcBookkeeping clearEA
  split <;> rfl

@[simp] lemma takeExcBookkeeping_stvecMODE (s : riscvState) (e : Nat) :
    (takeExcBookkeeping s e).stvecMODE = s.stvecMODE := by
  unfold takeExcBookkeeping clearEA
  split <;> rfl

@[simp] lemma takeExcBookkeeping_utvecMODE (s : riscvState) (e : Nat) :
    (takeExcBookkeeping s e).utvecMODE = s.utvecMODE := by
  unfold takeExcBookkeeping clearEA
  split <;> rfl

@[simp] lemma takeExcBookkeeping_MIMode (s : riscvState) (e : Nat) :
    (takeExcBookkeeping s e).MIMode = s.MIMode := by
  unfold takeExcBookkeeping clearEA
  split <;> rfl

@[simp] lemma takeExcBookkeeping_SIMode (s : riscvState) (e : Nat) :
    (takeExcBookkeeping s e).SIMode = s.SIMode := by
  unfold takeExcBookkeeping clearEA
  split <;> rfl

@[simp] lemma takeExcBookkeeping_UIMode (s : riscvState) (e : Nat) :
    (takeExcBookkeeping s e).UIMode = s.UIMode := by
  unfold takeExcBookkeeping clearEA
  split <;> rfl

@[simp] lemma takeExcBookkeeping_medeleg (s : riscvState) (e : Nat) :
    (takeExcBookkeeping s e).medeleg = s.medeleg := by
  unfold takeExcBookkeeping clearEA
  split <;> rfl

@[simp] lemma takeExcBookkeeping_sedeleg (s : riscvState) (e : Nat) :
    (takeExcBookkeeping s e).sedeleg = s.sedeleg := by
  unfold takeExcBookkeeping clearEA
  split <;> rfl

@[simp] lemma takeExcBookkeeping_mideleg (s : riscvState) (e : Nat) :
    (takeExcBookkeeping s e).mideleg = s.mideleg := by
  unfold takeExcBookkeeping clearEA
  split <;> rfl

@[simp] lemma takeExcBookkeeping_sideleg (s : riscvState) (e : Nat) :
    (takeExcBookkeeping s e).sideleg = s.sideleg := by
  unfold takeExcBookkeeping clearEA
  split <;> rfl

@[simp] lemma takeExcBookkeeping_mie (s : riscvState) (e : Nat) :
    (takeExcBookkeeping s e).mie = s.mie := by
  unfold takeExcBookkeeping clearEA
  split <;> rfl

@[simp] lemma takeExcBookkeeping_mip (s : riscvState) (e : Nat) :
    (takeExcBookkeeping s e).mip = s.mip := by
  unfold takeExcBookkeeping clearEA
  split <;> rfl

@[simp] lemma takeExcBookkeeping_extIntU (s : riscvState) (e : Nat) :
    (takeExcBookkeeping s e).extIntU = s.extIntU := by
  unfold takeExcBookkeeping clearEA
  split <;> rfl

@[simp] lemma takeExcBookkeeping_extIntS (s : riscvState) (e : Nat) :
    (takeExcBookkeeping s e).extIntS = s.extIntS := by
  unfold takeExcBookkeeping clearEA
  split <;> rfl

@[simp] lemma takeExcBookkeeping_extIntH (s : riscvState) (e : Nat) :
    (takeExcBookkeeping s e).extIntH = s.extIntH := by
  unfold takeExcBookkeeping clearEA
  split <;> rfl

@[simp] lemma takeExcBookkeeping_extIntM (s : riscvState) (e : Nat) :
    (takeExcBookkeeping s e).extIntM = s.extIntM := by
  unfold takeExcBookkeeping clearEA
  split <;> rfl

@[simp] lemma takeExcBookkeeping_exception (s : riscvState) (e : Nat) :
    (takeExcBookkeeping s e).exception = s.exception := by
  unfold takeExcBookkeeping clearEA
  split <;> rfl

@[simp] lemma takeExcBookkeeping_AFErrorIn (s : riscvState) (e : Nat) :
    (takeExcBookkeeping s e).AFErrorIn = s.AFErrorIn := by
  unfold takeExcBookkeeping clearEA
  split <;> rfl

@[simp] lemma takeExcBookkeeping_vstart (s : riscvState) (e : Nat) :
    (takeExcBookkeeping s e).vstart = s.vstart := by
  unfold takeExcBookkeeping clearEA
  split <;> rfl

@[simp] lemma takeExcBookkeeping_vstartMask (s : riscvState) (e : Nat) :
    (takeExcBookkeeping s e).vstartMask = s.vstartMask := by
  unfold takeExcBookkeeping clearEA
  split <;> rfl

@[simp] lemma takeExcBookkeeping_vl (s : riscvState) (e : Nat) :
    (takeExcBookkeeping s e).vl = s.vl := by
  unfold takeExcBookkeeping clearEA
  split <;> rfl

@[simp] lemma takeExcBookkeeping_dcsrCause (s : riscvState) (e : Nat) :
    (takeExcBookkeeping s e).dcsrCause = s.dcsrCause := by
  unfold takeExcBookkeeping clearEA
  split <;> rfl

@[simp] lemma takeExcBookkeeping_dpc (s : riscvState) (e : Nat) :
    (takeExcBookkeeping s e).dpc = s.dpc := by
  unfold takeExcBookkeeping clearEA
  split <;> rfl

@[simp] lemma takeExcBookkeeping_instrPattern (s : riscvState) (e : Nat) :
    (takeExcBookkeeping s e).instrPattern = s.instrPattern := by
  unfold takeExcBookkeeping clearEA
  split <;> rfl

@[simp] lemma takeExcBookkeeping_DM (s : riscvState) (e : Nat) :
    (takeExcBookkeeping s e).DM = s.DM := by
  unfold takeExcBookkeeping clearEA
  split <;> rfl

@[simp] lemma takeExcBookkeeping_DMStall (s : riscvState) (e : Nat) :
    (takeExcBookkeeping s e).DMStall = s.DMStall := by
  unfold takeExcBookkeeping clearEA
  split <;> rfl

@[simp] lemma takeExcBookkeeping_MIE (s : riscvState) (e : Nat) :
    (takeExcBookkeeping s e).MIE = s.MIE := by
  unfold takeExcBookkeeping clearEA
  split <;> rfl

@[simp] lemma takeExcBookkeeping_MPIE (s : riscvState) (e : Nat) :
    (takeExcBookkeeping s e).MPIE = s.MPIE := by
  unfold takeExcBookkeeping clearEA
  split <;> rfl

@[simp] lemma takeExcBookkeeping_SIE (s : riscvState) (e : Nat) :
    (takeExcBookkeeping s e).SIE = s.SIE := by
  unfold takeExcBookkeeping clearEA
  split <;> rfl

@[simp] lemma takeExcBookkeeping_SPIE (s : riscvState) (e : Nat) :
    (takeExcBookkeeping s e).SPIE = s.SPIE := by
  unfold takeExcBookkeeping clearEA
  split <;> rfl

@[simp] lemma takeExcBookkeeping_UIE (s : riscvState) (e : Nat) :
    (takeExcBookkeeping s e).UIE = s.UIE := by
  unfold takeExcBookkeeping clearEA
  split <;> rfl

@[simp] lemma takeExcBookkeeping_UPIE (s : riscvState) (e : Nat) :
    (takeExcBookkeeping s e).UPIE = s.UPIE := by
  unfold takeExcBookkeeping clearEA
  split <;> rfl

@[simp] lemma takeExcBookkeeping_MPRV (s : riscvState) (e : Nat) :
    (takeExcBookkeeping s e).MPRV = s.MPRV := by
  unfold takeExcBookkeeping clearEA
  split <;> rfl

@[simp] lemma takeExcBookkeeping_mcauseInterrupt (s : riscvState) (e : Nat) :
    (takeExcBookkeeping s e).mcauseInterrupt = s.mcauseInterrupt := by
  unfold takeExcBookkeeping clearEA
  split <;> rfl

@[simp] lemma takeExcBookkeeping_scauseInterrupt (s : riscvState) (e : Nat) :
    (takeExcBookkeeping s e).scauseInterrupt = s.scauseInterrupt := by
  unfold takeExcBookkeeping clearEA
  split <;> rfl

@[simp] lemma takeExcBookkeeping_ucauseInterrupt (s : riscvState) (e : Nat) :
    (takeExcBookkeeping s e).ucauseInterrupt = s.ucauseInterrupt := by
  unfold takeExcBookkeeping clearEA
  split <;> rfl

@[simp] lemma takeExcBookkeeping_inhibitInstret (s : riscvState) (e : Nat) :
    (takeExcBookkeeping s e).inhibitInstret = s.inhibitInstret := by
  unfold takeExcBookkeeping clearEA
  split <;> rfl

@[simp] lemma takeExcBookkeeping_vFirstFault (s : riscvState) (e : Nat) :
    (takeExcBookkeeping s e).vFirstFault = s.vFirstFault := by
  unfold takeExcBookkeeping clearEA
  split <;> rfl

@[simp] lemma takeExcBookkeeping_vPMKeyRefreshed (s : riscvState) (e : Nat) :
    (takeExcBookkeeping s e).vPMKeyRefreshed = s.vPMKeyRefreshed := by
  unfold takeExcBookkeeping clearEA
  split <;> rfl

@[simp] lemma takeExcBookkeeping_hasC (s : riscvState) (e : Nat) :
    (takeExcBookkeeping s e).hasC = s.hasC := by
  unfold takeExcBookkeeping clearEA
  split <;> rfl

@[simp] lemma takeExcBookkeeping_xret_preserves_lr (s : riscvState) (e : Nat) :
    (takeExcBookkeeping s e).xret_preserves_lr = s.xret_preserves_lr := by
  unfold takeExcBookkeeping clearEA
  split <;> rfl

@[simp] lemma takeExcBookkeeping_privVersionGT20190405 (s : riscvState) (e : Nat) :
    (takeExcBookkeeping s e).privVersionGT20190405 = s.privVersionGT20190405 := by
  unfold takeExcBookkeeping clearEA
  split <;> rfl

@[simp] lemma takeExcBookkeeping_tval_ii_code (s : riscvState) (e : Nat) :
    (takeExcBookkeeping s e).tval_ii_code = s.tval_ii_code := by
  unfold takeExcBookkeeping clearEA
  split <;> rfl

@[simp] lemma takeExcBookkeeping_hasS (s : riscvState) (e : Nat) :
    (takeExcBookkeeping s e).hasS = s.hasS := by
  unfold takeExcBookkeeping clearEA
  split <;> rfl

@[simp] lemma takeExcBookkeeping_hasU (s : riscvState) (e : Nat) :
    (takeExcBookkeeping s e).hasU = s.hasU := by
  unfold takeExcBookkeeping clearEA
  split <;> rfl

@[simp] lemma takeExcBookkeeping_configDebugModeIsInterrupt (s : riscvState) (e : Nat) :
    (takeExcBookkeeping s e).configDebugModeIsInterrupt = s.configDebugModeIsInterrupt := by
  unfold takeExcBookkeeping clearEA
  split <;> rfl

@[simp] lemma takeExcBookkeeping_mode (s : riscvState) (e : Nat) :
    (takeExcBookkeeping s e).mode = s.mode := by
  unfold takeExcBookkeeping clearEA
  split <;> rfl

@[simp] lemma takeExcBookkeeping_MPP (s : riscvState) (e : Nat) :
    (takeExcBookkeeping s e).MPP = s.MPP := by
  unfold takeExcBookkeeping clearEA
  split <;> rfl

@[simp] lemma takeExcBookkeeping_SPP (s : riscvState) (e : Nat) :
    (takeExcBookkeeping s e).SPP = s.SPP := by
  unfold takeExcBookkeeping clearEA
  split <;> rfl

@[simp] lemma takeExcBookkeeping_dcsrPrv (s : riscvState) (e : Nat) :
    (takeExcBookkeeping s e).dcsrPrv = s.dcsrPrv := by
  unfold takeExcBookkeeping clearEA
  split <;> rfl

@[simp] lemma takeExcBookkeeping_exclusiveTag (s : riscvState) (e : Nat) :
    (takeExcBookkeeping s e).exclusiveTag = none := by
  unfold takeExcBookkeeping clearEA
  split <;> rfl

@[simp] lemma takeExcBookkeeping_AFErrorOut (s : riscvState) (e : Nat) :
    (takeExcBookkeeping s e).AFErrorOut =
      (if accessFaultCode e then s.AFErrorIn else AFault_None) := by
  unfold takeExcBookkeeping clearEA
  split <;> rfl

@[simp] lemma takeExcBookkeeping_baseInstructions (s : riscvState) (e : Nat) :
    (takeExcBookkeeping s e).baseInstructions =
      (if ¬ retiredCode e ∧ ¬ s.inhibitInstret then s.baseInstructions + 1
       else s.baseInstructions) := by
  unfold takeExcBookkeeping clearEA
  split <;> simp_all
@[simp] lemma TARGET_MODE_U_eq (s : riscvState) (isInt : Bool)
    (ecode EPC tval : Nat) :
    TARGET_MODE_U s isInt ecode EPC tval =
      ({s with
        UPIE := s.UIE, UIE := false, ucauseCode := ecode,
        ucauseInterrupt := isInt, uepc := Nat.land EPC s.uepcMask,
        utval := tval},
       s.utvecBASE <<< 2, getIMode s.UIMode s.utvecMODE) := rfl

@[simp] lemma TARGET_MODE_S_eq (s : riscvState) (isInt : Bool)
    (ecode EPC tval : Nat) :
    TARGET_MODE_S s isInt ecode EPC tval =
      ({s with
        SPIE := s.SIE, SIE := false, scauseCode := ecode,
        scauseInterrupt := isInt, sepc := Nat.land EPC s.sepcMask,
        stval := tval},
       s.stvecBASE <<< 2, getIMode s.SIMode s.stvecMODE) := rfl

@[simp] lemma TARGET_MODE_M_eq (s : riscvState) (isInt : Bool)
    (ecode EPC tval : Nat) :
    TARGET_MODE_M s isInt ecode EPC tval =
      ({s with
        MPIE := s.MIE, MIE := false, mcauseCode := ecode,
        mcauseInterrupt := isInt, mepc := Nat.land EPC s.mepcMask,
        mtval := tval},
       s.mtvecBASE <<< 2, getIMode s.MIMode s.mtvecMODE) := rfl

@[simp] lemma takeModeX0_bookkeeping (s : riscvState) (e e2 : Nat) :
    takeModeX0 (takeExcBookkeeping s e) e2 = takeModeX0 s e2 := by
  unfold takeModeX0 getInterruptModeX getExceptionModeX getModeX
  simp

@[simp] lemma takeEcodeMod_bookkeeping (s : riscvState) (e e2 : Nat) :
    takeEcodeMod (takeExcBookkeeping s e) e2 = takeEcodeMod s e2 := by
  unfold takeEcodeMod extInt
  simp

/-- Characterization of the non-debug trap-entry path when the
destination mode is User. -/
lemma takeExcRun_eq_U (s : riscvState) (e tval : Nat)
    (hX : takeModeX0 s e = riscvMode.User) :
    takeExcRun s e tval =
      {takeExcBookkeeping s e with
        UPIE := s.UIE, UIE := false,
        ucauseCode := takeEcodeMod s e, ucauseInterrupt := IS_INTERRUPT e,
        uepc := Nat.land (getEPC s) s.uepcMask, utval := tval,
        mode := riscvMode.User, exception := e,
        pc := if getIMode s.UIMode s.utvecMODE = riscv_int_Direct ∨
                 ¬ IS_INTERRUPT e
              then s.utvecBASE <<< 2
              else s.utvecBASE <<< 2 + 4 * GET_ECODE e} := by
  unfold takeExcRun riscvSetMode
  simp [hX]

/-- Characterization of the non-debug trap-entry path when the
destination mode is Supervisor. -/
lemma takeExcRun_eq_S (s : riscvState) (e tval : Nat)
    (hX : takeModeX0 s e = riscvMode.Supervisor) :
    takeExcRun s e tval =
      {takeExcBookkeeping s e with
        SPIE := s.SIE, SIE := false,
        scauseCode := takeEcodeMod s e, scauseInterrupt := IS_INTERRUPT e,
        sepc := Nat.land (getEPC s) s.sepcMask, stval := tval,
        SPP := s.mode, mode := riscvMode.Supervisor, exception := e,
        pc := if getIMode s.SIMode s.stvecMODE = riscv_int_Direct ∨
                 ¬ IS_INTERRUPT e
              then s.stvecBASE <<< 2
              else s.stvecBASE <<< 2 + 4 * GET_ECODE e} := by
  unfold takeExcRun riscvSetMode
  simp [hX]

/-- Characterization of the non-debug trap-entry path when the
destination mode is neither User nor Supervisor (the machine-target
branch, which also covers the reserved Hypervisor destination). -/
lemma takeExcRun_eq_M (s : riscvState) (e tval : Nat)
    (hU : takeModeX0 s e ≠ riscvMode.User)
    (hS : takeModeX0 s e ≠ riscvMode.Supervisor) :
    takeExcRun s e tval =
      {takeExcBookkeeping s e with
        MPIE := s.MIE, MIE := false,
        mcauseCode := takeEcodeMod s e, mcauseInterrupt := IS_INTERRUPT e,
        mepc := Nat.land (getEPC s) s.mepcMask, mtval := tval,
        MPP := s.mode, mode := takeModeX0 s e, exception := e,
        pc := if getIMode s.MIMode s.mtvecMODE = riscv_int_Direct ∨
                 ¬ IS_INTERRUPT e
              then s.mtvecBASE <<< 2
              else s.mtvecBASE <<< 2 + 4 * GET_ECODE e} := by
  unfold takeExcRun riscvSetMode
  simp [hU, hS]

lemma takeExcRun_exception (s : riscvState) (e tval : Nat) :
    (takeExcRun s e tval).exception = e := rfl

lemma takeExcRun_DM (s : riscvState) (e tval : Nat) :
    (takeExcRun s e tval).DM = s.DM := by
  rcases hX : takeModeX0 s e
  · rw [takeExcRun_eq_U s e tval hX]; simp
  · rw [takeExcRun_eq_S s e tval hX]; simp
  · rw [takeExcRun_eq_M s e tval (by simp [hX]) (by simp [hX])]; simp
  · rw [takeExcRun_eq_M s e tval (by simp [hX]) (by simp [hX])]; simp

lemma takeExcRun_baseInstructions (s : riscvState) (e tval : Nat) :
    (takeExcRun s e tval).baseInstructions =
      (if ¬ retiredCode e ∧ ¬ s.inhibitInstret then s.baseInstructions + 1
       else s.baseInstructions) := by
  rcases hX : takeModeX0 s e
  · rw [takeExcRun_eq_U s e tval hX]; simp
  · rw [takeExcRun_eq_S s e tval hX]; simp
  · rw [takeExcRun_eq_M s e tval (by simp [hX]) (by simp [hX])]; simp
  · rw [takeExcRun_eq_M s e tval (by simp [hX]) (by simp [hX])]; simp


lemma land_one_shiftLeft_eq_zero (m e : Nat) :
    Nat.land m (1 <<< e) = 0 ↔ m.testBit e = false := by
  have h2 : 0 < (2:Nat) ^ e := Nat.pos_pow_of_pos e (by norm_num)
  show m &&& (1 <<< e) = 0 ↔ m.testBit e = false
  rw [Nat.one_shiftLeft, Nat.and_two_pow]
  cases h : m.testBit e <;> simp

/-- C1: for every exception or interrupt code, getModeX returns the
delegation-resolved mode (Machine if the code's bit is clear in the
machine-delegation register, else Supervisor if clear in the
supervisor-delegation register, else User) maximised with the current
mode under User < Supervisor < Machine, and in particular never a mode
strictly less privileged than the current mode. -/
theorem c1_resolveTargetMode (s : riscvState) (mMask sMask ecode : Nat) :
    getModeX s mMask sMask ecode =
      maxMode (delegatedModeSpec mMask sMask ecode) s.mode ∧
    s.mode.toNat ≤ (getModeX s mMask sMask ecode).toNat := by
  have hM := land_one_shiftLeft_eq_zero mMask ecode
  have hS := land_one_shiftLeft_eq_zero sMask ecode
  have key : getModeX s mMask sMask ecode =
      maxMode (delegatedModeSpec mMask sMask ecode) s.mode := by
    unfold getModeX delegatedModeSpec maxMode
    simp only [hM, hS]
    cases hsm : s.mode <;> split_ifs <;> simp_all [riscvMode.toNat]
  refine ⟨key, ?_⟩
  rw [key]
  unfold maxMode
  split
  · exact Nat.le_refl _
  · omega

/-- C5: while the Debug-Mode flag is set, riscvTakeException performs no
normal trap-entry state update for any exception or interrupt (mode, PC,
cause/epc/tval registers, interrupt-enable stack and previous-privilege
fields are all unchanged, and the flag stays set), and the
pending-and-enabled interrupt mask computed by the arbitrator is zero. -/
theorem c5_debugSuppression (s : riscvState) (e tval : Nat) (h : s.DM = true) :
    (riscvTakeException s e tval).DM = true ∧
    (riscvTakeException s e tval).mode = s.mode ∧
    (riscvTakeException s e tval).pc = s.pc ∧
    (riscvTakeException s e tval).exception = s.exception ∧
    (riscvTakeException s e tval).mcauseCode = s.mcauseCode ∧
    (riscvTakeException s e tval).scauseCode = s.scauseCode ∧
    (riscvTakeException s e tval).ucauseCode = s.ucauseCode ∧
    (riscvTakeException s e tval).mepc = s.mepc ∧
    (riscvTakeException s e tval).sepc = s.sepc ∧
    (riscvTakeException s e tval).uepc = s.uepc ∧
    (riscvTakeException s e tval).mtval = s.mtval ∧
    (riscvTakeException s e tval).stval = s.stval ∧
    (riscvTakeException s e tval).utval = s.utval ∧
    (riscvTakeException s e tval).MIE = s.MIE ∧
    (riscvTakeException s e tval).SIE = s.SIE ∧
    (riscvTakeException s e tval).UIE = s.UIE ∧
    (riscvTakeException s e tval).MPIE = s.MPIE ∧
    (riscvTakeException s e tval).SPIE = s.SPIE ∧
    (riscvTakeException s e tval).UPIE = s.UPIE ∧
    (riscvTakeException s e tval).MPP = s.MPP ∧
    (riscvTakeException s e tval).SPP = s.SPP ∧
    getPendingAndEnabledInterrupts s = 0 := by
  have hx : riscvTakeException s e tval = enterDM s DMC_NONE := by
    simp [riscvTakeException, h]
  have hp : getPendingAndEnabledInterrupts s = 0 := by
    simp [getPendingAndEnabledInterrupts, h]
  rw [hx]
  simp [enterDM, h, updateDMStall, haltProcessor, restartProcessor, hp]
  split <;> simp

/-- Witness for C5 at a concrete state in Debug Mode. -/
theorem c5_debugSuppression_witness :
    ({st0 with DM := true} : riscvState).DM = true ∧
    (riscvTakeException {st0 with DM := true} 2 0).mode =
      ({st0 with DM := true} : riscvState).mode := by
  exact ⟨rfl, (c5_debugSuppression {st0 with DM := true} 2 0 rfl).2.1⟩

/-- C8: executing DRET while the Debug-Mode flag is false takes an
Illegal Instruction exception (the last-taken exception becomes Illegal
Instruction) and leaves the flag false; executing DRET while the flag is
true exits Debug Mode without raising any exception (the last-taken
exception is unchanged). -/
theorem c8_dretIllegal (s : riscvState) :
    (riscvDRET s).DM = false ∧
    (riscvDRET s).exception =
      (if s.DM then s.exception else riscv_E_IllegalInstruction) := by
  by_cases h : s.DM
  · simp [riscvDRET, h, leaveDM, setDM, clearMPRV, doERETCommon,
      riscvSetMode, setPCxRET, updateDMStall, haltProcessor,
      restartProcessor]
    split_ifs <;> simp
  · simp [riscvDRET, h, riscvIllegalInstruction, riscvTakeException,
      takeExcRun_DM, takeExcRun_exception]

lemma retiredCode_iff (e : Nat) :
    retiredCode e = true ↔
      (e = riscv_E_Breakpoint ∨ e = riscv_E_EnvironmentCallFromUMode ∨
       e = riscv_E_EnvironmentCallFromSMode ∨
       e = riscv_E_EnvironmentCallFromHMode ∨
       e = riscv_E_EnvironmentCallFromMMode) := by
  unfold retiredCode
  split_ifs <;> simp_all

/-- C9: for every exception code taken while not in Debug Mode, the
retired-instruction counter is incremented exactly once when the code is
not in {Breakpoint, ECALL-from-any-mode} and counting is not inhibited,
and is not incremented when the code is in that set. -/
theorem c9_retiredCounter (s : riscvState) (e tval : Nat)
    (hdm : s.DM = false) :
    ((¬ (e = riscv_E_Breakpoint ∨ e = riscv_E_EnvironmentCallFromUMode ∨
         e = riscv_E_EnvironmentCallFromSMode ∨
         e = riscv_E_EnvironmentCallFromHMode ∨
         e = riscv_E_EnvironmentCallFromMMode) ∧ s.inhibitInstret = false) →
      (riscvTakeException s e tval).baseInstructions =
        s.baseInstructions + 1) ∧
    ((e = riscv_E_Breakpoint ∨ e = riscv_E_EnvironmentCallFromUMode ∨
      e = riscv_E_EnvironmentCallFromSMode ∨
      e = riscv_E_EnvironmentCallFromHMode ∨
      e = riscv_E_EnvironmentCallFromMMode) →
      (riscvTakeException s e tval).baseInstructions =
        s.baseInstructions) := by
  have hrun : riscvTakeException s e tval = takeExcRun s e tval := by
    simp [riscvTakeException, hdm]
  rw [hrun, takeExcRun_baseInstructions]
  constructor
  · rintro ⟨hne, hinh⟩
    have hr : ¬ retiredCode e = true := by
      rw [retiredCode_iff]
      exact hne
    simp [hr, hinh]
  · intro hmem
    have hr : retiredCode e = true := (retiredCode_iff e).mpr hmem
    simp [hr]

/-- Witness for C9: LoadAccessFault (code 5) taken at a concrete state
increments the retired-instruction counter by one. -/
theorem c9_retiredCounter_witness :
    st0.DM = false ∧
    (¬ (5 = riscv_E_Breakpoint ∨ 5 = riscv_E_EnvironmentCallFromUMode ∨
        5 = riscv_E_EnvironmentCallFromSMode ∨
        5 = riscv_E_EnvironmentCallFromHMode ∨
        5 = riscv_E_EnvironmentCallFromMMode) ∧ st0.inhibitInstret = false) ∧
    (riscvTakeException st0 5 0).baseInstructions =
      st0.baseInstructions + 1 :=
  ⟨rfl, by decide, (c9_retiredCounter st0 5 0 rfl).1 (by decide)⟩

/-- C6 counterexample: with compressed instructions currently enabled and
a saved mepc of 1 (an odd value), MRET writes the PC as 1, which is not
the saved epc masked to an even address (0); so the resume address
written to the PC by the return path is not always the saved epc masked
to an even address — setPCxRET only applies the 4-byte mask, and only
when compressed support is disabled. -/
theorem c6_cex_resumeAddress :
    (riscvMRET stC6).pc = 1 ∧ stC6.mepc - stC6.mepc % 2 = 0 ∧
    (riscvMRET stC6).pc ≠ stC6.mepc - stC6.mepc % 2 := by decide

/-- C6 amended: on the common return path (used by MRET, SRET, URET and
DRET via leaveDM), the resume address written to the PC equals the saved
epc masked to a 4-byte boundary when compressed-instruction support is
currently disabled, and equals the saved epc unchanged when it is
enabled; the even-address masking happens separately at instruction
fetch (riscvFetchSnap), so the effective resume fetch address equals the
saved epc masked to an even address, and additionally to a 4-byte
boundary when compressed support is disabled. -/
theorem c6_resumeAddressAmended (s : riscvState) (newMode : riscvMode)
    (epc : Nat) :
    (doERETCommon s newMode epc).pc =
      (if s.hasC then epc else epc - epc % 4) ∧
    riscvFetchSnap (doERETCommon s newMode epc).pc =
      (if s.hasC then epc - epc % 2 else epc - epc % 4) := by
  have h1 : (doERETCommon s newMode epc).pc =
      (if s.hasC then epc else epc - epc % 4) := by
    unfold doERETCommon setPCxRET riscvSetMode
    split <;> rfl
  refine ⟨h1, ?_⟩
  rw [h1]
  unfold riscvFetchSnap
  by_cases hc : s.hasC
  · simp [hc]
  · simp [hc]
    omega

/-- C7: for every memory exception raised through
riscvTakeMemoryException while the first-only-fault flag is active and
the (masked) start-index CSR vstart is nonzero, the exception is
suppressed — no trap is taken and no trap-entry CSR state changes — the
effective vector length is clamped to the start index, the
first-only-fault flag is cleared and the polymorphic re-key operation is
invoked; when vstart is zero or the flag is inactive, the exception is
taken normally through riscvTakeException. -/
theorem c7_firstOnlyFault (s : riscvState) (e tval : Nat) :
    (s.vFirstFault = true → Nat.land s.vstart s.vstartMask ≠ 0 →
      ((riscvTakeMemoryException s e tval).mode = s.mode ∧
       (riscvTakeMemoryException s e tval).pc = s.pc ∧
       (riscvTakeMemoryException s e tval).exception = s.exception ∧
       (riscvTakeMemoryException s e tval).mcauseCode = s.mcauseCode ∧
       (riscvTakeMemoryException s e tval).scauseCode = s.scauseCode ∧
       (riscvTakeMemoryException s e tval).ucauseCode = s.ucauseCode ∧
       (riscvTakeMemoryException s e tval).mepc = s.mepc ∧
       (riscvTakeMemoryException s e tval).sepc = s.sepc ∧
       (riscvTakeMemoryException s e tval).uepc = s.uepc ∧
       (riscvTakeMemoryException s e tval).mtval = s.mtval ∧
       (riscvTakeMemoryException s e tval).stval = s.stval ∧
       (riscvTakeMemoryException s e tval).utval = s.utval ∧
       (riscvTakeMemoryException s e tval).MIE = s.MIE ∧
       (riscvTakeMemoryException s e tval).SIE = s.SIE ∧
       (riscvTakeMemoryException s e tval).UIE = s.UIE ∧
       (riscvTakeMemoryException s e tval).MPIE = s.MPIE ∧
       (riscvTakeMemoryException s e tval).SPIE = s.SPIE ∧
       (riscvTakeMemoryException s e tval).UPIE = s.UPIE ∧
       (riscvTakeMemoryException s e tval).MPP = s.MPP ∧
       (riscvTakeMemoryException s e tval).SPP = s.SPP ∧
       (riscvTakeMemoryException s e tval).vl = Nat.land s.vstart s.vstartMask ∧
       (riscvTakeMemoryException s e tval).vFirstFault = false ∧
       (riscvTakeMemoryException s e tval).vPMKeyRefreshed = true)) ∧
    (s.vFirstFault = false →
      riscvTakeMemoryException s e tval =
        riscvTakeException
          {s with vstart := Nat.land s.vstart s.vstartMask} e tval) ∧
    (s.vFirstFault = true → Nat.land s.vstart s.vstartMask = 0 →
      riscvTakeMemoryException s e tval =
        riscvTakeException
          {s with
            vstart := Nat.land s.vstart s.vstartMask,
            vFirstFault := false} e tval) := by
  refine ⟨?_, ?_, ?_⟩
  · intro h1 h2
    unfold riscvTakeMemoryException handleFF riscvSetVL riscvRefreshVectorPMKey
    simp [h1, h2]
  · intro h1
    unfold riscvTakeMemoryException handleFF
    simp [h1]
  · intro h1 h2
    unfold riscvTakeMemoryException handleFF
    simp [h1, h2]

/-- Witness for C7 at the spec scenario: first-only-fault active,
vstart = 3 — the exception is suppressed, vl is clamped to 3, the flag is
cleared and the re-key operation performed. -/
theorem c7_firstOnlyFault_witness :
    stFF.vFirstFault = true ∧ Nat.land stFF.vstart stFF.vstartMask ≠ 0 ∧
    ((riscvTakeMemoryException stFF 5 0).mode = stFF.mode ∧
     (riscvTakeMemoryException stFF 5 0).pc = stFF.pc ∧
     (riscvTakeMemoryException stFF 5 0).exception = stFF.exception ∧
     (riscvTakeMemoryException stFF 5 0).mcauseCode = stFF.mcauseCode ∧
     (riscvTakeMemoryException stFF 5 0).scauseCode = stFF.scauseCode ∧
     (riscvTakeMemoryException stFF 5 0).ucauseCode = stFF.ucauseCode ∧
     (riscvTakeMemoryException stFF 5 0).mepc = stFF.mepc ∧
     (riscvTakeMemoryException stFF 5 0).sepc = stFF.sepc ∧
     (riscvTakeMemoryException stFF 5 0).uepc = stFF.uepc ∧
     (riscvTakeMemoryException stFF 5 0).mtval = stFF.mtval ∧
     (riscvTakeMemoryException stFF 5 0).stval = stFF.stval ∧
     (riscvTakeMemoryException stFF 5 0).utval = stFF.utval ∧
     (riscvTakeMemoryException stFF 5 0).MIE = stFF.MIE ∧
     (riscvTakeMemoryException stFF 5 0).SIE = stFF.SIE ∧
     (riscvTakeMemoryException stFF 5 0).UIE = stFF.UIE ∧
     (riscvTakeMemoryException stFF 5 0).MPIE = stFF.MPIE ∧
     (riscvTakeMemoryException stFF 5 0).SPIE = stFF.SPIE ∧
     (riscvTakeMemoryException stFF 5 0).UPIE = stFF.UPIE ∧
     (riscvTakeMemoryException stFF 5 0).MPP = stFF.MPP ∧
     (riscvTakeMemoryException stFF 5 0).SPP = stFF.SPP ∧
     (riscvTakeMemoryException stFF 5 0).vl = Nat.land stFF.vstart stFF.vstartMask ∧
     (riscvTakeMemoryException stFF 5 0).vFirstFault = false ∧
     (riscvTakeMemoryException stFF 5 0).vPMKeyRefreshed = true) :=
  ⟨rfl, by decide, (c7_firstOnlyFault stFF 5 0).1 rfl (by decide)⟩

lemma isExternal_isInterrupt (e : Nat) (h : isExternalInterrupt e = true) :
    IS_INTERRUPT e = true := by
  unfold isExternalInterrupt at h
  unfold IS_INTERRUPT
  simp [riscv_E_UExternalInterrupt, riscv_E_MExternalInterrupt,
    riscv_E_Interrupt] at h
  obtain ⟨h1, h2⟩ := h
  interval_cases e <;> decide

/-- C10: for every external interrupt taken (not in Debug Mode) whose
destination trap vector is in vectored mode, the handler address is
base + 4 x the bare architectural interrupt code, even when a nonzero
per-mode external-interrupt-ID latch overrides the code written to the
destination's cause register; the override affects only the cause value,
never the vectored handler offset. -/
theorem c10_vectoredExternal (s : riscvState) (e tval : Nat)
    (hdm : s.DM = false)
    (hext : isExternalInterrupt e = true)
    (hvec : tvecEffModeOf s (takeModeX0 s e) ≠ riscv_int_Direct) :
    (riscvTakeException s e tval).pc =
      tvecBaseOf s (takeModeX0 s e) <<< 2 + 4 * GET_ECODE e ∧
    causeCodeOf (riscvTakeException s e tval) (takeModeX0 s e) =
      (if extInt s (e - riscv_E_ExternalInterrupt) ≠ 0
       then extInt s (e - riscv_E_ExternalInterrupt)
       else GET_ECODE e) := by
  have hint := isExternal_isInterrupt e hext
  have hrun : riscvTakeException s e tval = takeExcRun s e tval := by
    simp [riscvTakeException, hdm]
  rw [hrun]
  have hmod : takeEcodeMod s e =
      (if extInt s (e - riscv_E_ExternalInterrupt) ≠ 0
       then extInt s (e - riscv_E_ExternalInterrupt)
       else GET_ECODE e) := by
    unfold takeEcodeMod
    simp [hext]
  rcases hX : takeModeX0 s e
  · rw [takeExcRun_eq_U s e tval hX]
    rw [hX] at hvec
    unfold tvecEffModeOf at hvec
    simp [hX, causeCodeOf, tvecBaseOf, hint, hvec, hmod]
  · rw [takeExcRun_eq_S s e tval hX]
    rw [hX] at hvec
    unfold tvecEffModeOf at hvec
    simp [hX, causeCodeOf, tvecBaseOf, hint, hvec, hmod]
  · rw [takeExcRun_eq_M s e tval (by simp [hX]) (by simp [hX])]
    rw [hX] at hvec
    unfold tvecEffModeOf at hvec
    simp [hX, causeCodeOf, tvecBaseOf, hint, hvec, hmod]
  · rw [takeExcRun_eq_M s e tval (by simp [hX]) (by simp [hX])]
    rw [hX] at hvec
    unfold tvecEffModeOf at hvec
    simp [hX, causeCodeOf, tvecBaseOf, hint, hvec, hmod]

/-- Witness for C10: MExternalInterrupt (code 75 = 64+11) with a latched
machine external-interrupt ID of 42 and mtvec in vectored mode. -/
theorem c10_vectoredExternal_witness :
    stC10.DM = false ∧ isExternalInterrupt 75 = true ∧
    tvecEffModeOf stC10 (takeModeX0 stC10 75) ≠ riscv_int_Direct ∧
    ((riscvTakeException stC10 75 0).pc =
      tvecBaseOf stC10 (takeModeX0 stC10 75) <<< 2 + 4 * GET_ECODE 75 ∧
     causeCodeOf (riscvTakeException stC10 75 0) (takeModeX0 stC10 75) =
      (if extInt stC10 (75 - riscv_E_ExternalInterrupt) ≠ 0
       then extInt stC10 (75 - riscv_E_ExternalInterrupt)
       else GET_ECODE 75)) :=
  ⟨rfl, by decide, by decide,
   c10_vectoredExternal stC10 75 0 rfl (by decide) (by decide)⟩

lemma mode_max_ge (y x : riscvMode) :
    y.toNat ≤ (if y.toNat < x.toNat then x else y).toNat := by
  split
  · omega
  · exact Nat.le_refl _

lemma getModeX_ge (s : riscvState) (mMask sMask ecode : Nat) :
    s.mode.toNat ≤ (getModeX s mMask sMask ecode).toNat := by
  unfold getModeX
  exact mode_max_ge s.mode _

lemma takeModeX0_ge (s : riscvState) (e : Nat) :
    s.mode.toNat ≤ (takeModeX0 s e).toNat := by
  unfold takeModeX0 getInterruptModeX getExceptionModeX
  split <;> exact getModeX_ge s _ _ _

lemma riscvHasMode_eq_of_fields (t s : riscvState) (hS : t.hasS = s.hasS)
    (hU : t.hasU = s.hasU) (m : riscvMode) :
    riscvHasMode t m = riscvHasMode s m := by
  cases m <;> simp [riscvHasMode, hS, hU]

lemma riscvGetMinMode_eq_of_fields (t s : riscvState) (hS : t.hasS = s.hasS)
    (hU : t.hasU = s.hasU) :
    riscvGetMinMode t = riscvGetMinMode s := by
  simp [riscvGetMinMode, hS, hU]

lemma riscvMRET_fields (t : riscvState) (hdm : t.DM = false)
    (hpp : riscvHasMode t t.MPP = true) :
    (riscvMRET t).mode = t.MPP ∧ (riscvMRET t).MIE = t.MPIE ∧
    (riscvMRET t).MPIE = true ∧ (riscvMRET t).MPP = riscvGetMinMode t ∧
    (riscvMRET t).pc = (if t.hasC then t.mepc else t.mepc - t.mepc % 4) := by
  unfold riscvMRET getERETMode clearEAxRET clearEA clearMPRV doERETCommon
    setPCxRET riscvSetMode
  simp [hdm, hpp]
  split_ifs <;> simp

lemma riscvSRET_fields (t : riscvState) (hdm : t.DM = false)
    (hpp : riscvHasMode t t.SPP = true) :
    (riscvSRET t).mode = t.SPP ∧ (riscvSRET t).SIE = t.SPIE ∧
    (riscvSRET t).SPIE = true ∧ (riscvSRET t).SPP = riscvGetMinMode t ∧
    (riscvSRET t).pc = (if t.hasC then t.sepc else t.sepc - t.sepc % 4) := by
  unfold riscvSRET getERETMode clearEAxRET clearEA clearMPRV doERETCommon
    setPCxRET riscvSetMode
  simp [hdm, hpp]
  split_ifs <;> simp

lemma riscvURET_fields (t : riscvState) (hdm : t.DM = false) :
    (riscvURET t).mode = riscvMode.User ∧ (riscvURET t).UIE = t.UPIE ∧
    (riscvURET t).UPIE = true ∧
    (riscvURET t).pc = (if t.hasC then t.uepc else t.uepc - t.uepc % 4) := by
  unfold riscvURET clearEAxRET clearEA doERETCommon setPCxRET riscvSetMode
  simp [hdm]
  split_ifs <;> simp

/-- C2: for every hart state not in Debug Mode, a trap taken to mode X
followed immediately by the matching return operation (MRET for Machine,
SRET for Supervisor, URET for User) restores the current privilege mode,
the mode-X interrupt-enable bit and the resume address to their pre-trap
values, except that the mode-X previous-enable bit is left at 1 and the
mode-X previous-privilege field (present for Machine and Supervisor) is
left at the minimum implemented mode.  The hypotheses pin down the
round-trip setting: not mid instruction-expansion, the current mode is
implemented, the destination is not the reserved Hypervisor mode, and
the pre-trap PC survives the epc writable-bit mask and the compressed
4-byte mask. -/
theorem c2_trapReturnRoundTrip (s : riscvState) (e tval : Nat)
    (hdm : s.DM = false) (hds : s.dsOffset = 0)
    (hmode : riscvHasMode s s.mode = true)
    (hH : takeModeX0 s e ≠ riscvMode.Hypervisor)
    (hmask : Nat.land s.pc (epcMaskOf s (takeModeX0 s e)) = s.pc)
    (hc : s.hasC = true ∨ s.pc % 4 = 0) :
    (matchingRet (takeModeX0 s e) (riscvTakeException s e tval)).mode =
      s.mode ∧
    ieOf (matchingRet (takeModeX0 s e) (riscvTakeException s e tval))
      (takeModeX0 s e) = ieOf s (takeModeX0 s e) ∧
    (matchingRet (takeModeX0 s e) (riscvTakeException s e tval)).pc = s.pc ∧
    pieOf (matchingRet (takeModeX0 s e) (riscvTakeException s e tval))
      (takeModeX0 s e) = true ∧
    (takeModeX0 s e = riscvMode.Machine →
      (matchingRet (takeModeX0 s e) (riscvTakeException s e tval)).MPP =
        riscvGetMinMode s) ∧
    (takeModeX0 s e = riscvMode.Supervisor →
      (matchingRet (takeModeX0 s e) (riscvTakeException s e tval)).SPP =
        riscvGetMinMode s) := by
  have hrun : riscvTakeException s e tval = takeExcRun s e tval := by
    simp [riscvTakeException, hdm]
  rcases hX : takeModeX0 s e
  · -- destination User
    have hle := takeModeX0_ge s e
    rw [hX] at hle
    have hsm : s.mode = riscvMode.User := by
      cases hm : s.mode
      · rfl
      · rw [hm] at hle; simp [riscvMode.toNat] at hle
      · rw [hm] at hle; simp [riscvMode.toNat] at hle
      · rw [hm] at hle; simp [riscvMode.toNat] at hle
    have hT := takeExcRun_eq_U s e tval hX
    have hDM2 : (takeExcRun s e tval).DM = false := by rw [hT]; simp [hdm]
    obtain ⟨f1, f2, f3, f4⟩ := riscvURET_fields (takeExcRun s e tval) hDM2
    have hUPIE : (takeExcRun s e tval).UPIE = s.UIE := by rw [hT]
    have hhasC : (takeExcRun s e tval).hasC = s.hasC := by rw [hT]; simp
    have huepc : (takeExcRun s e tval).uepc = s.pc := by
      rw [hT]
      show Nat.land (getEPC s) s.uepcMask = s.pc
      rw [hX] at hmask
      simp only [epcMaskOf] at hmask
      simp [getEPC, hds, hmask]
    rw [hrun]
    simp only [matchingRet]
    refine ⟨?_, ?_, ?_, ?_, ?_, ?_⟩
    · rw [f1, hsm]
    · simp only [ieOf]
      rw [f2, hUPIE]
    · rw [f4, hhasC, huepc]
      rcases hc with hc | hc
      · simp [hc]
      · split
        · rfl
        · omega
    · simp only [pieOf]
      exact f3
    · intro hcon; simp at hcon
    · intro hcon; simp at hcon
  · -- destination Supervisor
    have hT := takeExcRun_eq_S s e tval hX
    have hDM2 : (takeExcRun s e tval).DM = false := by rw [hT]; simp [hdm]
    have hSPP : (takeExcRun s e tval).SPP = s.mode := by rw [hT]
    have hSPIE : (takeExcRun s e tval).SPIE = s.SIE := by rw [hT]
    have hhasC : (takeExcRun s e tval).hasC = s.hasC := by rw [hT]; simp
    have hhasS : (takeExcRun s e tval).hasS = s.hasS := by rw [hT]; simp
    have hhasU : (takeExcRun s e tval).hasU = s.hasU := by rw [hT]; simp
    have hsepc : (takeExcRun s e tval).sepc = s.pc := by
      rw [hT]
      show Nat.land (getEPC s) s.sepcMask = s.pc
      rw [hX] at hmask
      simp only [epcMaskOf] at hmask
      simp [getEPC, hds, hmask]
    have hpp : riscvHasMode (takeExcRun s e tval)
        ((takeExcRun s e tval).SPP) = true := by
      rw [hSPP, riscvHasMode_eq_of_fields (takeExcRun s e tval) s hhasS hhasU]
      exact hmode
    obtain ⟨f1, f2, f3, f4, f5⟩ := riscvSRET_fields (takeExcRun s e tval)
      hDM2 hpp
    have hmin : riscvGetMinMode (takeExcRun s e tval) = riscvGetMinMode s :=
      riscvGetMinMode_eq_of_fields _ s hhasS hhasU
    rw [hrun]
    simp only [matchingRet]
    refine ⟨?_, ?_, ?_, ?_, ?_, ?_⟩
    · rw [f1, hSPP]
    · simp only [ieOf]
      rw [f2, hSPIE]
    · rw [f5, hhasC, hsepc]
      rcases hc with hc | hc
      · simp [hc]
      · split
        · rfl
        · omega
    · simp only [pieOf]
      exact f3
    · intro hcon; simp at hcon
    · intro _; rw [f4, hmin]
  · -- destination Hypervisor: excluded
    exact absurd hX hH
  · -- destination Machine
    have hT := takeExcRun_eq_M s e tval (by simp [hX]) (by simp [hX])
    have hDM2 : (takeExcRun s e tval).DM = false := by rw [hT]; simp [hdm]
    have hMPP : (takeExcRun s e tval).MPP = s.mode := by rw [hT]
    have hMPIE : (takeExcRun s e tval).MPIE = s.MIE := by rw [hT]
    have hhasC : (takeExcRun s e tval).hasC = s.hasC := by rw [hT]; simp
    have hhasS : (takeExcRun s e tval).hasS = s.hasS := by rw [hT]; simp
    have hhasU : (takeExcRun s e tval).hasU = s.hasU := by rw [hT]; simp
    have hmepc : (takeExcRun s e tval).mepc = s.pc := by
      rw [hT]
      show Nat.land (getEPC s) s.mepcMask = s.pc
      rw [hX] at hmask
      simp only [epcMaskOf] at hmask
      simp [getEPC, hds, hmask]
    have hpp : riscvHasMode (takeExcRun s e tval)
        ((takeExcRun s e tval).MPP) = true := by
      rw [hMPP, riscvHasMode_eq_of_fields (takeExcRun s e tval) s hhasS hhasU]
      exact hmode
    obtain ⟨f1, f2, f3, f4, f5⟩ := riscvMRET_fields (takeExcRun s e tval)
      hDM2 hpp
    have hmin : riscvGetMinMode (takeExcRun s e tval) = riscvGetMinMode s :=
      riscvGetMinMode_eq_of_fields _ s hhasS hhasU
    rw [hrun]
    simp only [matchingRet]
    refine ⟨?_, ?_, ?_, ?_, ?_, ?_⟩
    · rw [f1, hMPP]
    · simp only [ieOf]
      rw [f2, hMPIE]
    · rw [f5, hhasC, hmepc]
      rcases hc with hc | hc
      · simp [hc]
      · split
        · rfl
        · omega
    · simp only [pieOf]
      exact f3
    · intro _; rw [f4, hmin]
    · intro hcon; simp at hcon

/-- Witness for C2: LoadAccessFault taken at a concrete Machine-mode
state, followed by MRET — mode, MIE and the resume address are restored,
MPIE is left at 1 and MPP at the minimum implemented mode. -/
theorem c2_trapReturnRoundTrip_witness :
    st0.DM = false ∧ st0.dsOffset = 0 ∧ riscvHasMode st0 st0.mode = true ∧
    takeModeX0 st0 5 ≠ riscvMode.Hypervisor ∧
    Nat.land st0.pc (epcMaskOf st0 (takeModeX0 st0 5)) = st0.pc ∧
    (st0.hasC = true ∨ st0.pc % 4 = 0) ∧
    ((matchingRet (takeModeX0 st0 5) (riscvTakeException st0 5 7)).mode =
       st0.mode ∧
     ieOf (matchingRet (takeModeX0 st0 5) (riscvTakeException st0 5 7))
       (takeModeX0 st0 5) = ieOf st0 (takeModeX0 st0 5) ∧
     (matchingRet (takeModeX0 st0 5) (riscvTakeException st0 5 7)).pc =
       st0.pc ∧
     pieOf (matchingRet (takeModeX0 st0 5) (riscvTakeException st0 5 7))
       (takeModeX0 st0 5) = true ∧
     (takeModeX0 st0 5 = riscvMode.Machine →
       (matchingRet (takeModeX0 st0 5) (riscvTakeException st0 5 7)).MPP =
         riscvGetMinMode st0) ∧
     (takeModeX0 st0 5 = riscvMode.Supervisor →
       (matchingRet (takeModeX0 st0 5) (riscvTakeException st0 5 7)).SPP =
         riscvGetMinMode st0)) :=
  ⟨rfl, rfl, rfl, by decide, by decide, Or.inl rfl,
   c2_trapReturnRoundTrip st0 5 7 rfl rfl rfl (by decide) (by decide)
     (Or.inl rfl)⟩

lemma land_eq_and (a b : Nat) : Nat.land a b = a &&& b := rfl

lemma getIntPri_le_9 (n : Nat) : getIntPri n ≤ 9 := by
  unfold getIntPri
  split
  · omega
  · rename_i h
    push_neg at h
    interval_cases n <;> decide

lemma pickInt_ge_new (s : riscvState) (sel : Option Nat) (e : Nat) :
    intKey s e ≤ intKey s (pickInt s sel e) := by
  rcases sel with _ | c
  · exact Nat.le_refl _
  · have h1 := getIntPri_le_9 e
    have h2 := getIntPri_le_9 c
    simp only [pickInt, intKey]
    split_ifs <;> omega

lemma pickInt_ge_old (s : riscvState) (c e : Nat) :
    intKey s c ≤ intKey s (pickInt s (some c) e) := by
  have h1 := getIntPri_le_9 e
  have h2 := getIntPri_le_9 c
  simp only [pickInt, intKey]
  split_ifs <;> omega

lemma pickInt_mem (s : riscvState) (sel : Option Nat) (e : Nat) :
    pickInt s sel e = e ∨ sel = some (pickInt s sel e) := by
  rcases sel with _ | c
  · left; rfl
  · simp only [pickInt]
    split_ifs <;> simp

lemma selILoop_some_of_sel (s : riscvState) :
    ∀ m e c, ∃ r, selILoop s m e (some c) = some r ∧
      intKey s c ≤ intKey s r := by
  intro m
  induction m using Nat.strong_induction_on with
  | _ m ih =>
    intro e c
    by_cases h1 : Nat.land m 1 = 0 <;> by_cases h2 : m / 2 = 0
    · refine ⟨c, ?_, Nat.le_refl _⟩
      rw [selILoop]
      simp [h1, h2]
    · obtain ⟨r, hr, hkey⟩ := ih (m / 2) (by omega) (e + 1) c
      refine ⟨r, ?_, hkey⟩
      rw [selILoop]
      simp [h1, h2, hr]
    · refine ⟨pickInt s (some c) e, ?_, pickInt_ge_old s c e⟩
      rw [selILoop]
      simp [h1, h2]
    · obtain ⟨r, hr, hkey⟩ :=
        ih (m / 2) (by omega) (e + 1) (pickInt s (some c) e)
      refine ⟨r, ?_, le_trans (pickInt_ge_old s c e) hkey⟩
      rw [selILoop]
      simp [h1, h2, hr]

lemma land_one_ne_zero_of_testBit (m : Nat) (h : m.testBit 0 = true) :
    ¬ Nat.land m 1 = 0 := by
  rw [land_eq_and, Nat.and_one_is_mod]
  rw [Nat.testBit_zero] at h
  simp at h
  omega

lemma testBit_zero_of_land (m : Nat) (h : ¬ Nat.land m 1 = 0) :
    m.testBit 0 = true := by
  rw [land_eq_and, Nat.and_one_is_mod] at h
  rw [Nat.testBit_zero]
  simp
  omega

lemma selILoop_dom (s : riscvState) :
    ∀ m e sel k, m.testBit k = true →
      ∃ r, selILoop s m e sel = some r ∧ intKey s (e + k) ≤ intKey s r := by
  intro m
  induction m using Nat.strong_induction_on with
  | _ m ih =>
    intro e sel k hk
    rcases k with _ | k
    · have h1 : ¬ Nat.land m 1 = 0 := land_one_ne_zero_of_testBit m hk
      by_cases h2 : m / 2 = 0
      · refine ⟨pickInt s sel e, ?_, by simpa using pickInt_ge_new s sel e⟩
        rw [selILoop]
        simp [h1, h2]
      · obtain ⟨r, hr, hkey⟩ :=
          selILoop_some_of_sel s (m / 2) (e + 1) (pickInt s sel e)
        refine ⟨r, ?_, le_trans (by simpa using pickInt_ge_new s sel e) hkey⟩
        rw [selILoop]
        simp [h1, h2, hr]
    · have hk2 : (m / 2).testBit k = true := by
        rw [← Nat.testBit_succ]
        exact hk
      have h2 : ¬ m / 2 = 0 := by
        intro h0
        rw [h0, Nat.zero_testBit] at hk2
        exact Bool.false_ne_true hk2
      obtain ⟨r, hr, hkey⟩ :=
        ih (m / 2) (by omega) (e + 1)
          (if Nat.land m 1 ≠ 0 then some (pickInt s sel e) else sel) k hk2
      refine ⟨r, ?_, ?_⟩
      · rw [selILoop]
        simp only [h2, if_false, ite_false]
        exact hr
      · have heq : e + (k + 1) = (e + 1) + k := by omega
        rw [heq]
        exact hkey

lemma selILoop_mem (s : riscvState) :
    ∀ m e sel r, selILoop s m e sel = some r →
      sel = some r ∨ ∃ k, m.testBit k = true ∧ r = e + k := by
  intro m
  induction m using Nat.strong_induction_on with
  | _ m ih =>
    intro e sel r hr
    rw [selILoop] at hr
    by_cases h1 : Nat.land m 1 = 0 <;> by_cases h2 : m / 2 = 0 <;>
      simp only [h1, h2, ne_eq, not_false_eq_true, not_true_eq_false,
        if_true, if_false, ite_true, ite_false] at hr
    · exact Or.inl hr
    · rcases ih (m / 2) (by omega) (e + 1) sel r hr with h | ⟨k, hk, hek⟩
      · exact Or.inl h
      · refine Or.inr ⟨k + 1, ?_, by omega⟩
        rw [Nat.testBit_succ]
        exact hk
    · rcases pickInt_mem s sel e with hp | hp
      · refine Or.inr ⟨0, testBit_zero_of_land m h1, ?_⟩
        have hre := Option.some.inj hr
        rw [← hre, hp]
        omega
      · left
        rw [hp]
        exact hr
    · rcases ih (m / 2) (by omega) (e + 1) (some (pickInt s sel e)) r hr
        with h | ⟨k, hk, hek⟩
      · have hre := Option.some.inj h
        rcases pickInt_mem s sel e with hp | hp
        · refine Or.inr ⟨0, testBit_zero_of_land m h1, ?_⟩
          rw [← hre, hp]
          omega
        · left
          rw [hp, hre]
      · refine Or.inr ⟨k + 1, ?_, by omega⟩
        rw [Nat.testBit_succ]
        exact hk

lemma testBit_twoBit (i j k : Nat) :
    ((1 <<< i) ||| (1 <<< j)).testBit k = true ↔ (k = i ∨ k = j) := by
  rw [Nat.testBit_lor, Nat.one_shiftLeft, Nat.one_shiftLeft]
  constructor
  · intro h
    by_contra hc
    push_neg at hc
    obtain ⟨hi, hj⟩ := hc
    rw [Nat.testBit_two_pow_of_ne (fun hh => hi hh.symm),
        Nat.testBit_two_pow_of_ne (fun hh => hj hh.symm)] at h
    simp at h
  · rintro (rfl | rfl)
    · simp [Nat.testBit_two_pow_self]
    · simp [Nat.testBit_two_pow_self]

/-- C3: for every pending-and-enabled mask holding exactly two set bits
whose destination modes (per the delegation resolver) differ, the
selection loop of doInterrupt picks the bit whose destination mode is the
higher-privileged one, regardless of the two bits' fixed priority ranks,
and doInterrupt takes that interrupt. -/
theorem c3_arbiterModeDominates (s : riscvState) (i j : Nat) (hij : i ≠ j)
    (hmode : (getInterruptModeX s i).toNat < (getInterruptModeX s j).toNat) :
    selILoop s ((1 <<< i) ||| (1 <<< j)) 0 none = some j ∧
    doInterrupt s ((1 <<< i) ||| (1 <<< j)) =
      riscvTakeException s (riscv_E_Interrupt + j) 0 := by
  have hbi : ((1 <<< i) ||| (1 <<< j)).testBit i = true :=
    (testBit_twoBit i j i).mpr (Or.inl rfl)
  have hbj : ((1 <<< i) ||| (1 <<< j)).testBit j = true :=
    (testBit_twoBit i j j).mpr (Or.inr rfl)
  obtain ⟨r, hr, hkj⟩ := selILoop_dom s ((1 <<< i) ||| (1 <<< j)) 0 none j hbj
  obtain ⟨r2, hr2, hki⟩ := selILoop_dom s ((1 <<< i) ||| (1 <<< j)) 0 none i hbi
  rw [hr] at hr2
  have hrr : r = r2 := Option.some.inj hr2
  rw [← hrr] at hki
  simp only [Nat.zero_add] at hkj hki
  rcases selILoop_mem s ((1 <<< i) ||| (1 <<< j)) 0 none r hr
    with h0 | ⟨k, hk, hke⟩
  · exact absurd h0 (by simp)
  · have hkij : k = i ∨ k = j := (testBit_twoBit i j k).mp hk
    have hrk : r = k := by omega
    have hp1 := getIntPri_le_9 i
    have hp2 := getIntPri_le_9 j
    rcases hkij with rfl | rfl
    · exfalso
      rw [hrk] at hkj
      simp only [intKey] at hkj
      omega
    · rw [hrk] at hr
      refine ⟨hr, ?_⟩
      unfold doInterrupt
      rw [hr]

/-- C4: for every pending-and-enabled mask holding exactly two set bits
with the identical destination mode, the selection loop of doInterrupt
picks the one with the higher fixed priority rank, and the fixed rank
order from lowest to highest is: unranked (local/custom, indices 16 and
above) < UTimer (4) < USoftware (0) < UExternal (8) < STimer (5) <
SSoftware (1) < SExternal (9) < MTimer (7) < MSoftware (3) <
MExternal (11), with ranks 0 < 1 < 2 < 3 < 4 < 5 < 6 < 7 < 8 < 9. -/
theorem c4_arbiterFixedPriority (s : riscvState) (i j : Nat) (hij : i ≠ j)
    (hmode : getInterruptModeX s i = getInterruptModeX s j)
    (hpri : getIntPri i < getIntPri j) :
    (selILoop s ((1 <<< i) ||| (1 <<< j)) 0 none = some j ∧
     doInterrupt s ((1 <<< i) ||| (1 <<< j)) =
       riscvTakeException s (riscv_E_Interrupt + j) 0) ∧
    ((∀ n, 16 ≤ n → getIntPri n = 0) ∧
     getIntPri 4 = 1 ∧ getIntPri 0 = 2 ∧ getIntPri 8 = 3 ∧
     getIntPri 5 = 4 ∧ getIntPri 1 = 5 ∧ getIntPri 9 = 6 ∧
     getIntPri 7 = 7 ∧ getIntPri 3 = 8 ∧ getIntPri 11 = 9) := by
  refine ⟨?_, ⟨?_, by decide, by decide, by decide, by decide, by decide,
    by decide, by decide, by decide, by decide⟩⟩
  · have hbi : ((1 <<< i) ||| (1 <<< j)).testBit i = true :=
      (testBit_twoBit i j i).mpr (Or.inl rfl)
    have hbj : ((1 <<< i) ||| (1 <<< j)).testBit j = true :=
      (testBit_twoBit i j j).mpr (Or.inr rfl)
    obtain ⟨r, hr, hkj⟩ :=
      selILoop_dom s ((1 <<< i) ||| (1 <<< j)) 0 none j hbj
    simp only [Nat.zero_add] at hkj
    rcases selILoop_mem s ((1 <<< i) ||| (1 <<< j)) 0 none r hr
      with h0 | ⟨k, hk, hke⟩
    · exact absurd h0 (by simp)
    · have hkij : k = i ∨ k = j := (testBit_twoBit i j k).mp hk
      have hrk : r = k := by omega
      rcases hkij with rfl | rfl
      · exfalso
        rw [hrk] at hkj
        simp only [intKey, hmode] at hkj
        omega
      · rw [hrk] at hr
        refine ⟨hr, ?_⟩
        unfold doInterrupt
        rw [hr]
  · intro n hn
    unfold getIntPri
    simp [hn]

/-- Witness for C3: supervisor software interrupt (bit 1, delegated to
Supervisor) together with machine software interrupt (bit 3, destined
for Machine) — the machine-destined one is selected although both ranks
would favour it only after mode comparison. -/
theorem c3_arbiterModeDominates_witness :
    (1 : Nat) ≠ 3 ∧
    (getInterruptModeX stC3 1).toNat < (getInterruptModeX stC3 3).toNat ∧
    selILoop stC3 ((1 <<< 1) ||| (1 <<< 3)) 0 none = some 3 :=
  ⟨by decide, by decide,
   (c3_arbiterModeDominates stC3 1 3 (by decide) (by decide)).1⟩

/-- Witness for C4: machine software interrupt (bit 3, rank 8) together
with machine external interrupt (bit 11, rank 9), both destined for
Machine — the external interrupt is selected. -/
theorem c4_arbiterFixedPriority_witness :
    (3 : Nat) ≠ 11 ∧
    getInterruptModeX st0 3 = getInterruptModeX st0 11 ∧
    getIntPri 3 < getIntPri 11 ∧
    selILoop st0 ((1 <<< 3) ||| (1 <<< 11)) 0 none = some 11 :=
  ⟨by decide, by decide, by decide,
   ((c4_arbiterFixedPriority st0 3 11 (by decide) (by decide)
      (by decide)).1).1⟩
